import Mathlib

/-!
Verification development for the XRT 2018.2 command scheduler
(`src/runtime_src/driver/xclng/drm/xocl/subdev/mb_scheduler.c`, namespace
`Xocl` below, and `src/runtime_src/driver/zynq/kernel2/drm/zocl/sched_exec.c`,
namespace `Zocl` below).

The C sources are shallowly embedded: structs become Lean structures, u32
arithmetic is `Nat` with explicit reduction modulo 2^32 where the C can wrap,
MMIO writes become an explicit trace of (relative address, value) pairs, and
out-of-bounds array writes in `configure` are guarded and surface as an
`Except` error.  Constants that live in headers not present in the source
tree (`ert.h`, `sched_exec.h`) are defined below from the specification and
marked as such.
-/

/-- Unsigned 32-bit modulus, 2 to the power 32. -/
def U32_MOD : Nat := 4294967296

/-- Decrement of an unsigned 32-bit value as the C pre or post decrement
computes it: wraps to 2^32 - 1 when decrementing 0. -/
def u32dec (n : Nat) : Nat := (n + (U32_MOD - 1)) % U32_MOD

/-- Evaluation of the C expression ((n-1) shifted right by 5) + 1 in unsigned
32-bit arithmetic.  Both files use it for num_cu_masks and num_slot_masks.
For 1 <= n < 2^32 the value is (n-1)/32 + 1; for n = 0 the subtraction wraps
and the value is 2^27. -/
def maskCount (n : Nat) : Nat := ((n + (U32_MOD - 1)) % U32_MOD) >>> 5 + 1

/-- Scan for the first bit of mask satisfying the test, starting at bit j,
looking at the given number of further bits.  Helper for the embeddings of
the kernel bit primitives ffs and ffz on u32 values. -/
def bitScan (test : Nat → Bool) (j : Nat) : Nat → Int
  | 0 => -1
  | fuel+1 => if test j then (j : Int) else bitScan test (j+1) fuel

/-- Embedding of ffs_or_neg_one, identical in both C files: position of the
least significant set bit of a u32 mask, or -1 when the mask is zero.  For
masks below 2^32 the scan over bits 0..31 is exactly the C function. -/
def ffs_or_neg_one (mask : Nat) : Int :=
  bitScan (fun j => mask.testBit j) 0 32

/-- Embedding of ffz_or_neg_one, identical in both C files: position of the
least significant zero bit of a u32 mask, or -1 when the mask is all ones.
For masks below 2^32 the scan over bits 0..31 is exactly the C function. -/
def ffz_or_neg_one (mask : Nat) : Int :=
  bitScan (fun j => !(mask.testBit j)) 0 32

/-- Embedding of cu_mask_idx, identical in both C files. -/
def cu_mask_idx (cu_idx : Nat) : Nat := cu_idx >>> 5

/-- Embedding of cu_idx_in_mask, identical in both C files. -/
def cu_idx_in_mask (cu_idx : Nat) : Nat := cu_idx - (cu_mask_idx cu_idx <<< 5)

/-- Embedding of cu_idx_from_mask, identical in both C files. -/
def cu_idx_from_mask (cu_idx mask_idx : Nat) : Nat := cu_idx + (mask_idx <<< 5)

/-- Embedding of slot_mask_idx, identical in both C files. -/
def slot_mask_idx (slot_idx : Nat) : Nat := slot_idx >>> 5

/-- Embedding of slot_idx_in_mask, identical in both C files. -/
def slot_idx_in_mask (slot_idx : Nat) : Nat :=
  slot_idx - (slot_mask_idx slot_idx <<< 5)

/-- Embedding of slot_idx_from_mask_idx, identical in both C files. -/
def slot_idx_from_mask_idx (slot_idx mask_idx : Nat) : Nat :=
  slot_idx + (mask_idx <<< 5)

/-- Modelled from the spec: command states per the missing ert.h header
(state set New, Queued, Running, Completed, Error, Abort in section 3 of the
spec).  The zocl cmd_state enumeration mirrors it. -/
inductive CmdState where
  | new
  | queued
  | running
  | completed
  | error
  | abort
deriving DecidableEq, Repr, Inhabited

/-- Modelled from the spec: opcode constants of the missing ert.h header.
START_CU and START_KERNEL name the same opcode; this is required for the two
files to be coherent: penguin_submit dispatches on START_CU while cu_masks
and configure_cu read the packet through the start_kernel layout, and the
software back-end can only work if the two tests see the same packets. -/
def ERT_START_CU : Nat := 0

/-- Modelled from the spec: START_KERNEL opcode, equal to START_CU. -/
def ERT_START_KERNEL : Nat := 0

/-- Modelled from the spec: CONFIGURE opcode 0x2. -/
def ERT_CONFIGURE : Nat := 2

/-- Modelled from the spec: STOP opcode of the missing ert.h header. -/
def ERT_STOP : Nat := 3

/-- Modelled from the spec: ABORT opcode of the missing ert.h header. -/
def ERT_ABORT : Nat := 4

/-- Modelled from the spec: WRITE opcode of the missing ert.h header. -/
def ERT_WRITE : Nat := 5

/-- Modelled from the spec: default command type. -/
def ERT_DEFAULT : Nat := 0

/-- Modelled from the spec: KDS_LOCAL command type (no device work). -/
def ERT_KDS_LOCAL : Nat := 1

/-- Modelled from the spec: MAX_CUS is 128, the size of the cu_addr_map
array of the exec core (the constant lives in a header not present in the
source tree; the spec states number of CUs is at most 128 and the map has
128 entries). -/
def MAX_CUS : Nat := 128

/-- Modelled from the spec: command queue size in bytes.  Scenario 1 of the
spec gives num_slots = 32 for slot_size 4096, hence 128 KiB. -/
def ERT_CQ_SIZE : Nat := 131072

/-- Modelled from the spec: base of the ERT command queue region relative to
the device MMIO base.  The numeric value lives in the missing ert.h header;
no claim depends on it. -/
def ERT_CQ_BASE_ADDR : Nat := 0x190000

/-- Modelled from the spec: ERT completion status register address relative
to the device MMIO base.  The numeric value lives in the missing ert.h
header; no claim depends on it. -/
def ERT_STATUS_REGISTER_ADDR : Nat := 0x180000

/-- Modelled from the spec: ERT command queue doorbell status register
address relative to the device MMIO base.  The numeric value lives in the
missing ert.h header; no claim depends on it. -/
def ERT_CQ_STATUS_REGISTER_ADDR : Nat := 0x180008

namespace Xocl

/-- Embedding of the command packet as the mb_scheduler code reads it.  The
header bitfields (opcode, type, count, extra_cu_masks) and the feature
bitfields of the configure payload (polling, cq_int, ert, ...) are kept as
separate record fields because their exact bit packing lives in the missing
ert.h header; the code only accesses them through the struct views.  The raw
header word is kept as well because mb_submit writes it to the device.
data is the payload: for a configure command data gets slot_size, num_cus,
cu_shift, cu_base_addr, the features word and then the CU addresses; for a
start_kernel command data gets the CU mask words and then the register map. -/
structure ert_packet where
  header : Nat
  state : CmdState
  opcode : Nat
  ktype : Nat
  count : Nat
  extra_cu_masks : Nat
  polling : Bool
  cq_int : Bool
  ert : Bool
  cu_dma : Bool
  cu_isr : Bool
  dsa52 : Bool
  cdma : Bool
  data : List Nat
deriving DecidableEq, Repr, Inhabited

/-- Embedding of struct xocl_cmd.  The chain array of pointers to dependent
commands is passed explicitly to the functions that read it (trigger_chain,
mark_cmd_complete) because a Lean structure cannot recursively contain a
list of itself; those waiters never have their own chains inspected by the
embedded functions.  The bo and client pointers are external objects; the
client trigger counters appear in host_state below.  id models the unique
command id (and stands in for pointer identity on the freelist). -/
structure xocl_cmd where
  id : Nat
  packet : ert_packet
  state : CmdState
  cu_idx : Int
  slot_idx : Int
  wait_count : Nat
  chain_count : Nat
deriving DecidableEq, Repr, Inhabited

/-- Embedding of the two entries of the sched_ops vtable: penguin (software)
mode versus mb (ERT) mode. -/
inductive SchedOps where
  | penguin
  | mb
deriving DecidableEq, Repr, Inhabited

/-- Embedding of struct exec_core.  The fixed u32 arrays slot_status,
cu_status (4 words each) and cu_addr_map (MAX_CUS words) are modelled as
total functions from the word index; the C writes them only below their
declared bounds on the paths the claims cover, except for the cu_addr_map
writes in configure which the embedding therefore guards explicitly (see
copy_cu_addrs).  submitted_cmds is indexed by the int slot index and stores
the id of the submitted command. -/
structure exec_core where
  num_slots : Nat
  num_cus : Nat
  cu_shift_offset : Nat
  cu_base_addr : Nat
  polling_mode : Bool
  cq_interrupt : Bool
  configured : Bool
  cu_addr_map : Nat → Nat
  slot_status : Nat → Nat
  num_slot_masks : Nat
  cu_status : Nat → Nat
  num_cu_masks : Nat
  ops : SchedOps
  submitted_cmds : Int → Option Nat
deriving Inhabited

/-- Environment of a device as configure consults it: whether the feature
ROM enables the embedded scheduler (xocl_mb_sched_on), the CDMA engine
(xocl_cdma_on) and the DSA version (xocl_dsa_version). -/
structure DevEnv where
  ert : Bool
  cdma : Bool
  dsa : Nat
deriving DecidableEq, Repr, Inhabited

/-- Embedding of opcode(xcmd). -/
def opcode (cmd : xocl_cmd) : Nat := cmd.packet.opcode

/-- Embedding of type(xcmd); named ktype because the field name type is
taken by Lean. -/
def ktype (cmd : xocl_cmd) : Nat := cmd.packet.ktype

/-- Embedding of payload_size(xcmd). -/
def payload_size (cmd : xocl_cmd) : Nat := cmd.packet.count

/-- Embedding of packet_size(xcmd). -/
def packet_size (cmd : xocl_cmd) : Nat := payload_size cmd + 1

/-- Embedding of cu_masks(xcmd): 1 + extra_cu_masks for a start_kernel
packet, 0 otherwise. -/
def cu_masks (cmd : xocl_cmd) : Nat :=
  if opcode cmd = ERT_START_KERNEL then 1 + cmd.packet.extra_cu_masks else 0

/-- Embedding of regmap_size(xcmd): payload size minus the number of cu mask
words, computed in unsigned 32-bit arithmetic as the C does. -/
def regmap_size (cmd : xocl_cmd) : Nat :=
  (payload_size cmd + U32_MOD - cu_masks cmd % U32_MOD) % U32_MOD

/-- Access to the data array of the struct ert_start_kernel_cmd view of a
packet.  In that struct the first CU mask word is a named field before the
flexible data array, so index k of the view is index 1 + k of the packet
payload. -/
def skData (cmd : xocl_cmd) (k : Nat) : Nat := cmd.packet.data.getD (1 + k) 0

/-- Spec-side accessor for word i of the register map of a start_kernel
packet: the register map follows the cu_masks mask words in the payload. -/
def regmapWord (cmd : xocl_cmd) (i : Nat) : Nat :=
  cmd.packet.data.getD (cu_masks cmd + i) 0

/-- Embedding of set_cmd_int_state: sets the internal state only. -/
def set_cmd_int_state (cmd : xocl_cmd) (s : CmdState) : xocl_cmd :=
  { cmd with state := s }

/-- Embedding of set_cmd_state: sets the internal state and the state field
of the packet. -/
def set_cmd_state (cmd : xocl_cmd) (s : CmdState) : xocl_cmd :=
  { cmd with state := s, packet := { cmd.packet with state := s } }

/-- Embedding of cu_idx_to_addr: reads the cu_addr_map of the exec core. -/
def cu_idx_to_addr (exec : exec_core) (cu_idx : Nat) : Nat :=
  exec.cu_addr_map cu_idx

/-- Embedding of slot_size(exec). -/
def slot_size (exec : exec_core) : Nat := ERT_CQ_SIZE / exec.num_slots

/-- Embedding of the state reset_exec leaves the exec core in: 16 slots, one
slot mask, polling mode, penguin ops, not configured, all maps zeroed. -/
def reset_exec : exec_core where
  num_slots := 16
  num_cus := 0
  cu_shift_offset := 0
  cu_base_addr := 0
  polling_mode := true
  cq_interrupt := false
  configured := false
  cu_addr_map := fun _ => 0
  slot_status := fun _ => 0
  num_slot_masks := 1
  cu_status := fun _ => 0
  num_cu_masks := 0
  ops := .penguin
  submitted_cmds := fun _ => none

/-- Failure modes of the embedding that correspond to undefined behaviour of
the C: an out-of-bounds array write in configure, or the unsigned division
by a zero slot_size. -/
inductive CfgErr where
  | oobWrite
  | divByZero
deriving DecidableEq, Repr, Inhabited

/-- Embedding of the cu_addr_map copy loop of configure.  The C writes
exec->cu_addr_map[i] = cfg->data[i] for i below cfg->num_cus with no check
against the array bound MAX_CUS; the embedding makes that bound explicit and
reports the out-of-bounds write as an error.  cfg->data[i] is payload word
5 + i of the packet (the configure payload has five fixed words before the
CU addresses).  The fuel argument is the number of entries left to copy. -/
def copy_cu_addrs (cmd : xocl_cmd) (m : Nat → Nat) (i : Nat) :
    Nat → Except CfgErr (Nat → Nat)
  | 0 => .ok m
  | fuel+1 =>
    if i < MAX_CUS then
      copy_cu_addrs cmd
        (fun j => if j = i then cmd.packet.data.getD (5 + i) 0 else m j)
        (i + 1) fuel
    else
      .error .oobWrite

/-- Accessor for the slot_size field of a configure packet: payload word 0. -/
def cfg_slot_size (cmd : xocl_cmd) : Nat := cmd.packet.data.getD 0 0

/-- Accessor for the num_cus field of a configure packet: payload word 1. -/
def cfg_num_cus (cmd : xocl_cmd) : Nat := cmd.packet.data.getD 1 0

/-- Accessor for the cu_shift field of a configure packet: payload word 2. -/
def cfg_cu_shift (cmd : xocl_cmd) : Nat := cmd.packet.data.getD 2 0

/-- Accessor for the cu_base_addr field of a configure packet: payload
word 3. -/
def cfg_cu_base_addr (cmd : xocl_cmd) : Nat := cmd.packet.data.getD 3 0

/-- Embedding of configure.  Returns the int result of the C function (0 for
success, 1 for the reject paths, which include the sched_error_on assertion
on a wrong opcode, an already configured core and a count field that does
not equal 5 + num_cus in u32 arithmetic) together with the updated command
packet and exec core; undefined behaviour of the C (division by a zero
slot_size, out-of-bounds cu_addr_map writes) is reported through the
CfgErr error branch.  When the device has a CDMA engine an extra CU address
0x250000 is appended and num_cus incremented both in the core and in the
packet; when the feature ROM and the command request ERT the mb ops are
installed and the dsa52 and cdma capability bits are stamped back into the
packet, otherwise penguin ops with polling are installed. -/
def configure (cmd : xocl_cmd) (exec : exec_core) (env : DevEnv) :
    Except CfgErr (Nat × xocl_cmd × exec_core) :=
  if opcode cmd ≠ ERT_CONFIGURE then .ok (1, cmd, exec)
  else if exec.configured then .ok (1, cmd, exec)
  else if cmd.packet.count ≠ (5 + cfg_num_cus cmd) % U32_MOD then
    .ok (1, cmd, exec)
  else if cfg_slot_size cmd = 0 then .error .divByZero
  else
    let num_slots := ERT_CQ_SIZE / cfg_slot_size cmd
    let num_cus := cfg_num_cus cmd
    match copy_cu_addrs cmd exec.cu_addr_map 0 num_cus with
    | .error e => .error e
    | .ok map1 =>
      let exec1 : exec_core :=
        { exec with
          num_slots := num_slots
          num_cus := num_cus
          cu_shift_offset := cfg_cu_shift cmd
          cu_base_addr := cfg_cu_base_addr cmd
          num_cu_masks := maskCount num_cus
          num_slot_masks := maskCount num_slots
          cu_addr_map := map1 }
      match
        (if env.cdma then
          (if num_cus < MAX_CUS then
            .ok ({ exec1 with
                    cu_addr_map := fun j =>
                      if j = num_cus then 0x250000 else exec1.cu_addr_map j
                    num_cus := (num_cus + 1) % U32_MOD },
                 { cmd with packet :=
                    { cmd.packet with
                       data := cmd.packet.data.set 1 ((num_cus + 1) % U32_MOD) } })
          else (.error .oobWrite : Except CfgErr (exec_core × xocl_cmd)))
        else .ok (exec1, cmd)) with
      | .error e => .error e
      | .ok (exec2, cmd2) =>
        if env.ert ∧ cmd2.packet.ert then
          .ok (0,
               { cmd2 with packet :=
                  { cmd2.packet with
                     dsa52 := decide (52 ≤ env.dsa)
                     cdma := env.cdma } },
               { exec2 with
                  ops := .mb
                  polling_mode := cmd2.packet.polling
                  cq_interrupt := cmd2.packet.cq_int
                  configured := true })
        else
          .ok (0, cmd2,
               { exec2 with
                  ops := .penguin
                  polling_mode := true
                  configured := true })

/-- Embedding of exec_write: MMIO writes of the (addr, val) pairs of the
payload; the loop bound count - 1 is computed in unsigned 32-bit arithmetic
as in the C.  The function always returns 0, which the caller treats as
success.  The list is the write trace relative to the device base. -/
def exec_write_loop (cmd : xocl_cmd) (idx : Nat) : Nat → List (Nat × Nat)
  | 0 => []
  | fuel+1 =>
    if idx < (cmd.packet.count + (U32_MOD - 1)) % U32_MOD then
      (cmd.packet.data.getD idx 0, cmd.packet.data.getD (idx+1) 0)
        :: exec_write_loop cmd (idx + 2) fuel
    else []

/-- Embedding of exec_write; first component is the C return value 0. -/
def exec_write (cmd : xocl_cmd) : Nat × List (Nat × Nat) :=
  (0, exec_write_loop cmd 0 ((cmd.packet.count + (U32_MOD - 1)) % U32_MOD + 1))

/-- Embedding of the acquire_slot_idx scan: for each slot mask in order,
take the first zero bit whose global index is below num_slots, flip it and
return the global index; -1 when no mask yields one.  The fuel argument is
the number of masks left to scan. -/
def acquire_slot_idx_loop (exec : exec_core) (mask_idx : Nat) :
    Nat → exec_core × Int
  | 0 => (exec, -1)
  | fuel+1 =>
    let mask := exec.slot_status mask_idx
    let slot_idx := ffz_or_neg_one mask
    if slot_idx = -1 ∨ exec.num_slots ≤ slot_idx_from_mask_idx slot_idx.toNat mask_idx then
      acquire_slot_idx_loop exec (mask_idx + 1) fuel
    else
      ({ exec with slot_status := fun j =>
           if j = mask_idx then mask ^^^ (1 <<< slot_idx.toNat)
           else exec.slot_status j },
       (slot_idx_from_mask_idx slot_idx.toNat mask_idx : Nat))

/-- Embedding of acquire_slot_idx. -/
def acquire_slot_idx (exec : exec_core) : exec_core × Int :=
  acquire_slot_idx_loop exec 0 exec.num_slot_masks

/-- Embedding of release_slot_idx: the slot status word holding the slot is
XORed with the bit of the slot. -/
def release_slot_idx (exec : exec_core) (slot_idx : Nat) : exec_core :=
  let mask_idx := slot_mask_idx slot_idx
  let pos := slot_idx_in_mask slot_idx
  { exec with slot_status := fun j =>
      if j = mask_idx then exec.slot_status mask_idx ^^^ (1 <<< pos)
      else exec.slot_status j }

/-- Embedding of the get_free_cu scan over the CU mask words of the packet:
for each word the candidates are (cmd_mask OR busy) XOR busy; the first word
with a candidate yields the first set candidate bit, the corresponding
cu_status bit is flipped and the global CU index returned.  The fuel
argument is the number of mask words left to scan. -/
def get_free_cu_loop (cmd : xocl_cmd) (exec : exec_core) (mask_idx : Nat) :
    Nat → exec_core × Int
  | 0 => (exec, -1)
  | fuel+1 =>
    let cmd_mask := cmd.packet.data.getD mask_idx 0
    let busy_mask := exec.cu_status mask_idx
    let cu_idx := ffs_or_neg_one ((cmd_mask ||| busy_mask) ^^^ busy_mask)
    if 0 ≤ cu_idx then
      ({ exec with cu_status := fun j =>
           if j = mask_idx then busy_mask ^^^ (1 <<< cu_idx.toNat)
           else exec.cu_status j },
       (cu_idx_from_mask cu_idx.toNat mask_idx : Nat))
    else
      get_free_cu_loop cmd exec (mask_idx + 1) fuel

/-- Embedding of get_free_cu: the loop runs over the cu_masks mask words of
the command packet. -/
def get_free_cu (cmd : xocl_cmd) (exec : exec_core) : exec_core × Int :=
  get_free_cu_loop cmd exec 0 (cu_masks cmd)

/-- Embedding of the register map transfer loop of configure_cu: word
extra_cu_masks + i of the start_kernel data view goes to relative address
cu_addr + (i shifted left by 2), for i from 1 while i < regmap_size. -/
def configure_cu_loop (cmd : xocl_cmd) (cu_addr : Nat) (i : Nat) :
    Nat → List (Nat × Nat)
  | 0 => []
  | fuel+1 =>
    (cu_addr + (i <<< 2), skData cmd (cmd.packet.extra_cu_masks + i))
      :: configure_cu_loop cmd cu_addr (i + 1) fuel

/-- Embedding of configure_cu: the write trace of the register map transfer
(skipping word 0 of the register map) followed by the AP_START write of 1 to
the CU base address. -/
def configure_cu (cmd : xocl_cmd) (exec : exec_core) (cu_idx : Nat) :
    List (Nat × Nat) :=
  let cu_addr := cu_idx_to_addr exec cu_idx
  configure_cu_loop cmd cu_addr 1 (regmap_size cmd - 1) ++ [(cu_addr, 1)]

/-- Result of a back-end submit: the C bool return value, the command and
exec core after their in-place mutation, and the MMIO write trace. -/
structure SubmitRes where
  ok : Bool
  cmd : xocl_cmd
  exec : exec_core
  trace : List (Nat × Nat)
deriving Inhabited

/-- Embedding of penguin_submit.  A configure or KDS local command just
reserves a slot and succeeds; any other opcode than START_CU fails; a
START_CU command allocates a CU through get_free_cu, then a slot, and on
success transfers the register map through configure_cu.  Note that the C
does not release the acquired CU bit when the slot allocation fails. -/
def penguin_submit (cmd : xocl_cmd) (exec : exec_core) : SubmitRes :=
  if opcode cmd = ERT_CONFIGURE ∨ ktype cmd = ERT_KDS_LOCAL then
    let r := acquire_slot_idx exec
    ⟨true, { cmd with slot_idx := r.2 }, r.1, []⟩
  else if opcode cmd ≠ ERT_START_CU then ⟨false, cmd, exec, []⟩
  else
    let rcu := get_free_cu cmd exec
    let cmd1 := { cmd with cu_idx := rcu.2 }
    if rcu.2 < 0 then ⟨false, cmd1, rcu.1, []⟩
    else
      let rs := acquire_slot_idx rcu.1
      let cmd2 := { cmd1 with slot_idx := rs.2 }
      if rs.2 < 0 then ⟨false, cmd2, rs.1, []⟩
      else ⟨true, cmd2, rs.1, configure_cu cmd2 rs.1 rcu.2.toNat⟩

/-- Embedding of mb_submit: acquire a slot, and unless the command is KDS
local, copy the packet payload to the slot body, then write the header word
(the commit), then the doorbell bit when the CQ interrupt is enabled.  The
payload copy of memcpy_toio is rendered word by word. -/
def mb_submit (cmd : xocl_cmd) (exec : exec_core) : SubmitRes :=
  let rs := acquire_slot_idx exec
  let cmd1 := { cmd with slot_idx := rs.2 }
  if rs.2 < 0 then ⟨false, cmd1, rs.1, []⟩
  else if ktype cmd = ERT_KDS_LOCAL then ⟨true, cmd1, rs.1, []⟩
  else
    let slot_addr := ERT_CQ_BASE_ADDR + rs.2.toNat * slot_size rs.1
    let body := (List.range (packet_size cmd - 1)).map
      (fun k => (slot_addr + 4 + 4 * k, cmd.packet.data.getD k 0))
    let hdr := [(slot_addr, cmd.packet.header)]
    let intr :=
      if rs.1.cq_interrupt then
        [(ERT_CQ_STATUS_REGISTER_ADDR + (slot_mask_idx rs.2.toNat <<< 2),
          1 <<< slot_idx_in_mask rs.2.toNat)]
      else []
    ⟨true, cmd1, rs.1, body ++ hdr ++ intr⟩

/-- Result of queued_to_running: command, exec core, scheduler poll counter,
MMIO write trace and the C bool return value. -/
structure QtrRes where
  cmd : xocl_cmd
  exec : exec_core
  poll : Nat
  trace : List (Nat × Nat)
  ok : Bool
deriving Inhabited

/-- Dispatch of the ops vtable submit entry of the exec core. -/
def ops_submit (exec1 : exec_core) (cmd1 : xocl_cmd) : SubmitRes :=
  match exec1.ops with
  | .penguin => penguin_submit cmd1 exec1
  | .mb => mb_submit cmd1 exec1

/-- Tail of queued_to_running after the back-end submit returned: on success
the command enters the running state, the poll counter is bumped in polling
mode and the command is recorded in submitted_cmds under its slot index. -/
def qtr_finish (sres : SubmitRes) (wtrace : List (Nat × Nat)) (poll : Nat) :
    Except CfgErr QtrRes :=
  if sres.ok then
    .ok ⟨set_cmd_int_state sres.cmd .running,
         { sres.exec with submitted_cmds := fun s =>
             if s = sres.cmd.slot_idx then some sres.cmd.id
             else sres.exec.submitted_cmds s },
         if sres.exec.polling_mode then poll + 1 else poll,
         wtrace ++ sres.trace, true⟩
  else .ok ⟨sres.cmd, sres.exec, poll, wtrace ++ sres.trace, false⟩

/-- Embedding of queued_to_running.  A command with a nonzero wait_count is
left untouched.  A configure command runs configure inline and moves to the
error state when configure rejects it.  A write command executes exec_write,
whose failure branch is dead because exec_write always returns 0.  Then the
back-end submit of the ops vtable runs and qtr_finish applies its effect. -/
def queued_to_running (cmd : xocl_cmd) (exec : exec_core) (env : DevEnv)
    (poll : Nat) : Except CfgErr QtrRes :=
  if cmd.wait_count ≠ 0 then .ok ⟨cmd, exec, poll, [], false⟩
  else
    match (if opcode cmd = ERT_CONFIGURE then configure cmd exec env
           else .ok (0, cmd, exec)) with
    | .error e => .error e
    | .ok (cfgres, cmd1, exec1) =>
      if cfgres ≠ 0 then
        .ok ⟨set_cmd_state cmd1 .error, exec1, poll, [], false⟩
      else
        qtr_finish (ops_submit exec1 cmd1)
          (if opcode cmd = ERT_WRITE then (exec_write cmd1).2 else []) poll

/-- Host-visible state of the driver: the poll trigger counters of the
clients attached to the device (the ctx_list that notify_host walks) and the
ids of the command objects on the process-wide freelist. -/
structure host_state where
  triggers : List Nat
  free_cmds : List Nat
deriving DecidableEq, Repr, Inhabited

/-- Embedding of notify_host: every client trigger counter on the device is
incremented and the poll wait queue is woken. -/
def notify_host (h : host_state) : host_state :=
  { h with triggers := h.triggers.map (fun t => t + 1) }

/-- Embedding of recycle_cmd: the command object moves to the tail of the
freelist. -/
def recycle_cmd (cmd : xocl_cmd) (h : host_state) : host_state :=
  { h with free_cmds := h.free_cmds ++ [cmd.id] }

/-- Embedding of cleanup_exec: the buffer object reference drop and the
outstanding counters are external to the embedding; the observable effect is
the recycling of the command object. -/
def cleanup_exec (cmd : xocl_cmd) (h : host_state) : host_state :=
  recycle_cmd cmd h

/-- Embedding of complete_to_free. -/
def complete_to_free (cmd : xocl_cmd) (h : host_state) : host_state :=
  cleanup_exec cmd h

/-- Embedding of error_to_free: notify the host, then free. -/
def error_to_free (cmd : xocl_cmd) (h : host_state) : host_state :=
  complete_to_free cmd (notify_host h)

/-- Embedding of abort_to_free: free without notifying the host. -/
def abort_to_free (cmd : xocl_cmd) (h : host_state) : host_state :=
  complete_to_free cmd h

/-- Result of processing a chain: the popped waiters after their wait_count
decrement or start attempt, the exec core, the poll counter and the MMIO
trace of any started waiters. -/
structure ChainRes where
  waiters : List xocl_cmd
  exec : exec_core
  poll : Nat
  trace : List (Nat × Nat)
deriving Inhabited

/-- Embedding of the trigger_chain loop: entries of the chain array are
popped from index chain_count - 1 downward; each waiter has its wait_count
decremented in unsigned arithmetic (the sched_error_on assertion on a
nonpositive wait count only logs) and is started through queued_to_running
when the count reaches zero. -/
def trigger_chain_loop (chain : List xocl_cmd) (exec : exec_core)
    (env : DevEnv) (poll : Nat) : Nat → Except CfgErr ChainRes
  | 0 => .ok ⟨[], exec, poll, []⟩
  | k+1 =>
    let trigger := chain.getD k default
    let t1 := { trigger with wait_count := u32dec trigger.wait_count }
    if t1.wait_count = 0 then
      match queued_to_running t1 exec env poll with
      | .error e => .error e
      | .ok r =>
        match trigger_chain_loop chain r.exec env r.poll k with
        | .error e => .error e
        | .ok rest =>
          .ok ⟨r.cmd :: rest.waiters, rest.exec, rest.poll, r.trace ++ rest.trace⟩
    else
      match trigger_chain_loop chain exec env poll k with
      | .error e => .error e
      | .ok rest => .ok ⟨t1 :: rest.waiters, rest.exec, rest.poll, rest.trace⟩

/-- Embedding of trigger_chain: the while loop leaves chain_count at 0. -/
def trigger_chain (cmd : xocl_cmd) (chain : List xocl_cmd) (exec : exec_core)
    (env : DevEnv) (poll : Nat) : Except CfgErr (xocl_cmd × ChainRes) :=
  match trigger_chain_loop chain exec env poll cmd.chain_count with
  | .error e => .error e
  | .ok r => .ok ({ cmd with chain_count := 0 }, r)

/-- Result of mark_cmd_complete. -/
structure MarkRes where
  cmd : xocl_cmd
  exec : exec_core
  host : host_state
  poll : Nat
  trace : List (Nat × Nat)
deriving Inhabited

/-- Embedding of mark_cmd_complete: the slot entry in submitted_cmds is
cleared, the command moves to the completed state (internal and packet), the
poll counter is decremented in polling mode, the slot is released, the host
is notified, the buffer object is deactivated (external to the embedding)
and the chain of waiting commands is triggered. -/
def mark_cmd_complete (cmd : xocl_cmd) (chain : List xocl_cmd)
    (exec : exec_core) (env : DevEnv) (host : host_state) (poll : Nat) :
    Except CfgErr MarkRes :=
  match trigger_chain (set_cmd_state cmd .completed) chain
      (release_slot_idx
        { exec with submitted_cmds := fun s =>
            if s = cmd.slot_idx then none else exec.submitted_cmds s }
        cmd.slot_idx.toNat)
      env (if exec.polling_mode then u32dec poll else poll) with
  | .error e => .error e
  | .ok (cmd2, r) => .ok ⟨cmd2, r.exec, notify_host host, r.poll, r.trace⟩

end Xocl

/-- Projection of an Except result to the Bool telling whether it is ok. -/
def exOk {ε α : Type} : Except ε α → Bool
  | .ok _ => true
  | .error _ => false

/-- Projection of an Except result to its ok value, defaulting on error. -/
def exGet {ε α : Type} [Inhabited α] : Except ε α → α
  | .ok a => a
  | .error _ => default

/-- Test for the out-of-bounds write error of the configure embedding. -/
def isOobErr {α : Type} : Except Xocl.CfgErr α → Bool
  | .error .oobWrite => true
  | _ => false

namespace Zocl

/-- Modelled from the spec: zocl opcode constants of the missing
sched_exec.h header share the firmware ABI of the xocl ones. -/
def OP_CONFIGURE : Nat := ERT_CONFIGURE

/-- Modelled from the spec: zocl START_CU opcode. -/
def OP_START_CU : Nat := ERT_START_CU

/-- Modelled from the spec: zocl START_KERNEL opcode, equal to START_CU. -/
def OP_START_KERNEL : Nat := ERT_START_KERNEL

/-- Modelled from the spec: zocl STOP opcode. -/
def OP_STOP : Nat := ERT_STOP

/-- Modelled from the spec: zocl ABORT opcode. -/
def OP_ABORT : Nat := ERT_ABORT

/-- Modelled from the spec: zocl command queue size in bytes; the constant
lives in the missing sched_exec.h header and no claim depends on its
value. -/
def CQ_SIZE : Nat := 65536

/-- The zocl packet carries the same firmware ABI fields as the xocl one. -/
abbrev sched_packet := Xocl.ert_packet

/-- Embedding of struct sched_cmd.  zocl commands have no dependency
fields.  id models pointer identity; buffer and free_buffer are external. -/
structure sched_cmd where
  id : Nat
  packet : sched_packet
  state : CmdState
  cu_idx : Int
  slot_idx : Int
  cq_slot_idx : Nat
deriving DecidableEq, Repr, Inhabited

/-- Embedding of the two zocl sched_ops vtables: penguin versus PS ERT. -/
inductive ZOps where
  | penguin
  | psErt
deriving DecidableEq, Repr, Inhabited

/-- Embedding of struct sched_exec_core of zocl.  As in the xocl embedding
the fixed u32 arrays are modelled as total functions of the word index. -/
structure sched_exec_core where
  num_slots : Nat
  num_cus : Nat
  cu_shift_offset : Nat
  cu_base_addr : Nat
  polling_mode : Bool
  cq_interrupt : Bool
  cu_dma : Bool
  cu_isr : Bool
  configured : Bool
  slot_status : Nat → Nat
  num_slot_masks : Nat
  cu_status : Nat → Nat
  num_cu_masks : Nat
  ops : ZOps
  submitted_cmds : Int → Option Nat
deriving Inhabited

/-- Environment of the zocl driver as configure and the scheduler consult
it: whether the device has the PS ERT (zdev->ert), and the states of the two
global lists that configure checks, rendered as booleans: whether the
pending list is empty and whether the scheduler command queue is singular
(holds exactly the configure command being processed). -/
structure ZEnv where
  ert : Bool
  pendingEmpty : Bool
  queueSingular : Bool
deriving DecidableEq, Repr, Inhabited

/-- Embedding of opcode(cmd) for zocl. -/
def opcode (cmd : sched_cmd) : Nat := cmd.packet.opcode

/-- Embedding of payload_size(cmd) for zocl. -/
def payload_size (cmd : sched_cmd) : Nat := cmd.packet.count

/-- Embedding of packet_size(cmd) for zocl. -/
def packet_size (cmd : sched_cmd) : Nat := payload_size cmd + 1

/-- Embedding of cu_masks(cmd) for zocl. -/
def cu_masks (cmd : sched_cmd) : Nat :=
  if opcode cmd = OP_START_KERNEL then 1 + cmd.packet.extra_cu_masks else 0

/-- Embedding of regmap_size(cmd) for zocl, in unsigned 32-bit
arithmetic. -/
def regmap_size (cmd : sched_cmd) : Nat :=
  (payload_size cmd + U32_MOD - cu_masks cmd % U32_MOD) % U32_MOD

/-- Embedding of cu_idx_to_offset: byte offset of a CU register file
relative to the mapped CU region. -/
def cu_idx_to_offset (exec : sched_exec_core) (cu_idx : Nat) : Nat :=
  cu_idx <<< exec.cu_shift_offset

/-- Access to the data array of the struct start_kernel_cmd view of a zocl
packet; as in xocl the first CU mask word is a named field before the
flexible array, so index k of the view is payload word 1 + k. -/
def skData (cmd : sched_cmd) (k : Nat) : Nat := cmd.packet.data.getD (1 + k) 0

/-- Embedding of set_cmd_int_state for zocl. -/
def set_cmd_int_state (cmd : sched_cmd) (s : CmdState) : sched_cmd :=
  { cmd with state := s }

/-- Embedding of set_cmd_state for zocl. -/
def set_cmd_state (cmd : sched_cmd) (s : CmdState) : sched_cmd :=
  { cmd with state := s, packet := { cmd.packet with state := s } }

/-- Symbolic names for the PS ERT hardware registers that setup_ert_hw
programs; their numeric offsets live in the missing sched_exec.h header and
no claim depends on them. -/
inductive ErtReg where
  | cqSlotSizeReg
  | cuOffsetReg
  | cqNumSlotsReg
  | cuBaseAddrReg
  | cqBaseAddrReg
  | numCuReg
  | cuDmaEnable
  | hostIntEnable
deriving DecidableEq, Repr, Inhabited

/-- Embedding of setup_ert_hw as its write trace over the symbolic PS ERT
registers, in program order. -/
def setup_ert_hw (exec : sched_exec_core) : List (ErtReg × Nat) :=
  [ (.cqSlotSizeReg, (CQ_SIZE / exec.num_slots) / 4),
    (.cuOffsetReg, exec.cu_shift_offset),
    (.cqNumSlotsReg, exec.num_slots),
    (.cuBaseAddrReg, 0x81800000 / 4),
    (.cqBaseAddrReg, 0x80190000 / 4),
    (.numCuReg, exec.num_cus),
    (.cuDmaEnable, exec.cu_dma.toNat),
    (.hostIntEnable, if exec.polling_mode then 0 else 1) ]

/-- Embedding of the zocl configure.  All reject paths return 1 with the
core untouched: a wrong opcode (the sched_error_on assertion only logs),
nonempty pending list, a command queue that is not singular, or an already
configured core.  Otherwise the geometry fields are set (note that zocl does
not recompute num_slot_masks), and then: on a device without PS ERT a
configure requesting ert leaves the ops and the configured flag untouched
and still returns 0, otherwise penguin ops are installed; on a PS ERT device
the ert ops are installed, the feature flags copied and the ERT hardware
programmed.  Division by a zero slot_size is undefined behaviour of the C
and surfaces as an error. -/
def configure (cmd : sched_cmd) (exec : sched_exec_core) (env : ZEnv) :
    Except Xocl.CfgErr (Nat × sched_exec_core × List (ErtReg × Nat)) :=
  if opcode cmd ≠ OP_CONFIGURE then .ok (1, exec, [])
  else if ¬env.pendingEmpty then .ok (1, exec, [])
  else if ¬env.queueSingular then .ok (1, exec, [])
  else if exec.configured then .ok (1, exec, [])
  else if cmd.packet.data.getD 0 0 = 0 then .error .divByZero
  else
    let exec1 : sched_exec_core :=
      { exec with
        num_slots := CQ_SIZE / cmd.packet.data.getD 0 0
        num_cus := cmd.packet.data.getD 1 0
        cu_shift_offset := cmd.packet.data.getD 2 0
        cu_base_addr := cmd.packet.data.getD 3 0
        num_cu_masks := maskCount (cmd.packet.data.getD 1 0) }
    if ¬env.ert then
      if cmd.packet.ert then
        .ok (0, exec1, [])
      else
        .ok (0, { exec1 with ops := .penguin, polling_mode := true,
                             configured := true }, [])
    else
      let exec2 : sched_exec_core :=
        { exec1 with
          ops := .psErt
          polling_mode := cmd.packet.polling
          cq_interrupt := cmd.packet.cq_int
          cu_dma := cmd.packet.cu_dma
          cu_isr := cmd.packet.cu_isr }
      .ok (0, { exec2 with configured := true }, setup_ert_hw exec2)

/-- Embedding of the zocl acquire_slot_idx scan, identical in structure to
the xocl one. -/
def acquire_slot_idx_loop (exec : sched_exec_core) (mask_idx : Nat) :
    Nat → sched_exec_core × Int
  | 0 => (exec, -1)
  | fuel+1 =>
    let mask := exec.slot_status mask_idx
    let slot_idx := ffz_or_neg_one mask
    if slot_idx = -1 ∨ exec.num_slots ≤ slot_idx_from_mask_idx slot_idx.toNat mask_idx then
      acquire_slot_idx_loop exec (mask_idx + 1) fuel
    else
      ({ exec with slot_status := fun j =>
           if j = mask_idx then mask ^^^ (1 <<< slot_idx.toNat)
           else exec.slot_status j },
       (slot_idx_from_mask_idx slot_idx.toNat mask_idx : Nat))

/-- Embedding of acquire_slot_idx for zocl. -/
def acquire_slot_idx (exec : sched_exec_core) : sched_exec_core × Int :=
  acquire_slot_idx_loop exec 0 exec.num_slot_masks

/-- Embedding of release_slot_idx for zocl: the slot status word holding the
slot is XORed with the bit of the slot. -/
def release_slot_idx (exec : sched_exec_core) (slot_idx : Nat) :
    sched_exec_core :=
  let mask_idx := slot_mask_idx slot_idx
  let pos := slot_idx_in_mask slot_idx
  { exec with slot_status := fun j =>
      if j = mask_idx then exec.slot_status mask_idx ^^^ (1 <<< pos)
      else exec.slot_status j }

/-- Embedding of the zocl get_free_cu scan; unlike xocl the number of CU
mask words scanned is num_cu_masks of the exec core, not the mask count of
the packet. -/
def get_free_cu_loop (cmd : sched_cmd) (exec : sched_exec_core)
    (mask_idx : Nat) : Nat → sched_exec_core × Int
  | 0 => (exec, -1)
  | fuel+1 =>
    let cmd_mask := cmd.packet.data.getD mask_idx 0
    let busy_mask := exec.cu_status mask_idx
    let cu_idx := ffs_or_neg_one ((cmd_mask ||| busy_mask) ^^^ busy_mask)
    if 0 ≤ cu_idx then
      ({ exec with cu_status := fun j =>
           if j = mask_idx then busy_mask ^^^ (1 <<< cu_idx.toNat)
           else exec.cu_status j },
       (cu_idx_from_mask cu_idx.toNat mask_idx : Nat))
    else
      get_free_cu_loop cmd exec (mask_idx + 1) fuel

/-- Embedding of get_free_cu for zocl. -/
def get_free_cu (cmd : sched_cmd) (exec : sched_exec_core) :
    sched_exec_core × Int :=
  get_free_cu_loop cmd exec 0 exec.num_cu_masks

/-- Embedding of the zocl configure_cu register map loop: word index i of
the CU register file, as a byte offset relative to the mapped CU region. -/
def configure_cu_loop (cmd : sched_cmd) (cu_off : Nat) (i : Nat) :
    Nat → List (Nat × Nat)
  | 0 => []
  | fuel+1 =>
    (cu_off + 4 * i, skData cmd (cmd.packet.extra_cu_masks + i))
      :: configure_cu_loop cmd cu_off (i + 1) fuel

/-- Embedding of configure_cu for zocl: transfer the register map skipping
word 0, then write AP_START to word 0. -/
def configure_cu (cmd : sched_cmd) (exec : sched_exec_core) (cu_idx : Nat) :
    List (Nat × Nat) :=
  let cu_off := cu_idx_to_offset exec cu_idx
  configure_cu_loop cmd cu_off 1 (regmap_size cmd - 1) ++ [(cu_off, 1)]

/-- Embedding of ert_configure_cu, whose body matches configure_cu. -/
def ert_configure_cu (cmd : sched_cmd) (exec : sched_exec_core)
    (cu_idx : Nat) : List (Nat × Nat) :=
  let cu_off := cu_idx_to_offset exec cu_idx
  configure_cu_loop cmd cu_off 1 (regmap_size cmd - 1) ++ [(cu_off, 1)]

/-- Result of a zocl back-end submit. -/
structure ZSubmitRes where
  ok : Bool
  cmd : sched_cmd
  exec : sched_exec_core
  trace : List (Nat × Nat)
deriving Inhabited

/-- Embedding of penguin_submit for zocl.  A configure command reserves a
slot and succeeds; any other opcode than START_CU fails; a START_CU command
allocates a CU then a slot and transfers the register map.  As in xocl the
acquired CU bit is not released when the slot allocation fails. -/
def penguin_submit (cmd : sched_cmd) (exec : sched_exec_core) : ZSubmitRes :=
  if opcode cmd = OP_CONFIGURE then
    let r := acquire_slot_idx exec
    ⟨true, { cmd with slot_idx := r.2 }, r.1, []⟩
  else if opcode cmd ≠ OP_START_CU then ⟨false, cmd, exec, []⟩
  else
    let rcu := get_free_cu cmd exec
    let cmd1 := { cmd with cu_idx := rcu.2 }
    if rcu.2 < 0 then ⟨false, cmd1, rcu.1, []⟩
    else
      let rs := acquire_slot_idx rcu.1
      let cmd2 := { cmd1 with slot_idx := rs.2 }
      if rs.2 < 0 then ⟨false, cmd2, rs.1, []⟩
      else ⟨true, cmd2, rs.1, configure_cu cmd2 rs.1 rcu.2.toNat⟩

/-- Embedding of ps_ert_submit, which mirrors penguin_submit with the ERT
variant of the CU transfer. -/
def ps_ert_submit (cmd : sched_cmd) (exec : sched_exec_core) : ZSubmitRes :=
  if opcode cmd = OP_CONFIGURE then
    let r := acquire_slot_idx exec
    ⟨true, { cmd with slot_idx := r.2 }, r.1, []⟩
  else if opcode cmd ≠ OP_START_CU then ⟨false, cmd, exec, []⟩
  else
    let rcu := get_free_cu cmd exec
    let cmd1 := { cmd with cu_idx := rcu.2 }
    if rcu.2 < 0 then ⟨false, cmd1, rcu.1, []⟩
    else
      let rs := acquire_slot_idx rcu.1
      let cmd2 := { cmd1 with slot_idx := rs.2 }
      if rs.2 < 0 then ⟨false, cmd2, rs.1, []⟩
      else ⟨true, cmd2, rs.1, ert_configure_cu cmd2 rs.1 rcu.2.toNat⟩

/-- Result of the zocl queued_to_running: command, exec core, poll counter,
CU write trace, PS ERT register trace and the C return value. -/
structure ZQtrRes where
  cmd : sched_cmd
  exec : sched_exec_core
  poll : Nat
  trace : List (Nat × Nat)
  ertTrace : List (ErtReg × Nat)
  ok : Bool
deriving Inhabited

/-- Dispatch of the zocl ops vtable submit entry. -/
def z_ops_submit (exec1 : sched_exec_core) (cmd : sched_cmd) : ZSubmitRes :=
  match exec1.ops with
  | .penguin => penguin_submit cmd exec1
  | .psErt => ps_ert_submit cmd exec1

/-- Tail of the zocl queued_to_running after the back-end submit returned. -/
def z_finish (sres : ZSubmitRes) (ertTr : List (ErtReg × Nat)) (env : ZEnv)
    (poll : Nat) : Except Xocl.CfgErr ZQtrRes :=
  if sres.ok then
    .ok ⟨set_cmd_int_state sres.cmd .running,
         { sres.exec with submitted_cmds := fun s =>
             if s = sres.cmd.slot_idx then some sres.cmd.id
             else sres.exec.submitted_cmds s },
         if env.ert ∨ sres.exec.polling_mode then poll + 1 else poll,
         sres.trace, ertTr, true⟩
  else .ok ⟨sres.cmd, sres.exec, poll, sres.trace, ertTr, false⟩

/-- Embedding of queued_to_running for zocl.  Unlike xocl there is no
wait_count gate (zocl commands have no dependencies) and the return value of
configure is ignored: a rejected configure still proceeds to the back-end
submit, whose effect z_finish applies (running state, poll counter bump when
the device is a PS ERT or polls, submitted_cmds entry). -/
def queued_to_running (cmd : sched_cmd) (exec : sched_exec_core) (env : ZEnv)
    (poll : Nat) : Except Xocl.CfgErr ZQtrRes :=
  match (if opcode cmd = OP_CONFIGURE then configure cmd exec env
         else .ok (0, exec, [])) with
  | .error e => .error e
  | .ok (_cfgres, exec1, ertTr) => z_finish (z_ops_submit exec1 cmd) ertTr env poll

end Zocl

/-- Spec-side accessor used by the statements about get_free_cu: the
candidate mask of CU mask word m, the expression (cmd_mask OR busy) XOR busy
the code computes. -/
def cu_candidates (cmd : Xocl.xocl_cmd) (exec : Xocl.exec_core) (m : Nat) :
    Nat :=
  (cmd.packet.data.getD m 0 ||| exec.cu_status m) ^^^ exec.cu_status m

/-- Spec-side accessor for the zocl get_free_cu statements: the candidate
mask of packet CU mask word m against the cu_status of the zocl core. -/
def z_cu_candidates (cmd : Zocl.sched_cmd) (exec : Zocl.sched_exec_core)
    (m : Nat) : Nat :=
  (cmd.packet.data.getD m 0 ||| exec.cu_status m) ^^^ exec.cu_status m

/-- Blank packet used as the base of the concrete test packets below. -/
def basePacket : Xocl.ert_packet where
  header := 0
  state := .new
  opcode := 0
  ktype := 0
  count := 0
  extra_cu_masks := 0
  polling := false
  cq_int := false
  ert := false
  cu_dma := false
  cu_isr := false
  dsa52 := false
  cdma := false
  data := []

/-- Device environment without ERT and without CDMA. -/
def envPlain : Xocl.DevEnv := ⟨false, false, 50⟩

/-- Device environment with a CDMA engine. -/
def envCdma : Xocl.DevEnv := ⟨false, true, 50⟩

/-- Concrete START_CU command for claim C1: one CU mask word selecting CU 0,
then a three word register map. -/
def c1_cmd : Xocl.xocl_cmd where
  id := 7
  packet := { basePacket with
                opcode := ERT_START_CU
                ktype := ERT_DEFAULT
                count := 4
                extra_cu_masks := 0
                data := [1, 0, 0xAA, 0xBB] }
  state := .queued
  cu_idx := -1
  slot_idx := -1
  wait_count := 0
  chain_count := 0

/-- Concrete exec core for claim C1: one CU, its busy bit clear, and all 16
command queue slots busy, so the CU allocation succeeds and the slot
allocation fails. -/
def c1_exec : Xocl.exec_core :=
  { Xocl.reset_exec with
    num_cus := 1
    num_cu_masks := 1
    slot_status := fun j => if j = 0 then 65535 else 0 }

/-- Concrete CONFIGURE command for the xocl side of claim C2. -/
def c2x_cmd : Xocl.xocl_cmd where
  id := 11
  packet := { basePacket with
                opcode := ERT_CONFIGURE
                count := 5
                data := [4096, 0, 16, 0, 0] }
  state := .queued
  cu_idx := -1
  slot_idx := -1
  wait_count := 0
  chain_count := 0

/-- Concrete already configured xocl exec core for claim C2. -/
def c2x_exec : Xocl.exec_core := { Xocl.reset_exec with configured := true }

/-- Concrete CONFIGURE command for the zocl side of claim C2. -/
def c2z_cmd : Zocl.sched_cmd where
  id := 12
  packet := { basePacket with
                opcode := ERT_CONFIGURE
                count := 5
                data := [4096, 0, 16, 0, 0] }
  state := .queued
  cu_idx := -1
  slot_idx := -1
  cq_slot_idx := 0

/-- Concrete already configured zocl exec core for claim C2. -/
def c2z_exec : Zocl.sched_exec_core where
  num_slots := 16
  num_cus := 1
  cu_shift_offset := 16
  cu_base_addr := 0
  polling_mode := true
  cq_interrupt := false
  cu_dma := false
  cu_isr := false
  configured := true
  slot_status := fun _ => 0
  num_slot_masks := 1
  cu_status := fun _ => 0
  num_cu_masks := 1
  ops := .penguin
  submitted_cmds := fun _ => none

/-- Concrete zocl environment for claim C2: no PS ERT, empty pending list,
singular command queue. -/
def c2z_env : Zocl.ZEnv := ⟨false, true, true⟩

/-- Concrete KDS local command with no dependencies for the claim C3
witness. -/
def c3w_cmd : Xocl.xocl_cmd where
  id := 21
  packet := { basePacket with
                opcode := ERT_START_CU
                ktype := ERT_KDS_LOCAL
                count := 1
                data := [0] }
  state := .queued
  cu_idx := -1
  slot_idx := -1
  wait_count := 0
  chain_count := 0

/-- Concrete command with two unresolved dependencies for the claim C3
witness. -/
def c3b_cmd : Xocl.xocl_cmd := { c3w_cmd with id := 22, wait_count := 2 }

/-- Concrete CONFIGURE command with num_cus = 0 for the claim C4
counterexample. -/
def c4a_cmd : Xocl.xocl_cmd where
  id := 31
  packet := { basePacket with
                opcode := ERT_CONFIGURE
                count := 5
                data := [4096, 0, 16, 0, 0] }
  state := .queued
  cu_idx := -1
  slot_idx := -1
  wait_count := 0
  chain_count := 0

/-- Concrete CONFIGURE command with num_cus = 1 and one CU address for
claim C4. -/
def c4b_cmd : Xocl.xocl_cmd where
  id := 32
  packet := { basePacket with
                opcode := ERT_CONFIGURE
                count := 6
                data := [4096, 1, 16, 0, 0, 0x10000] }
  state := .queued
  cu_idx := -1
  slot_idx := -1
  wait_count := 0
  chain_count := 0

/-- Concrete completed command occupying slot 0 for the claim C5 witness. -/
def c5_cmd : Xocl.xocl_cmd where
  id := 41
  packet := { basePacket with
                opcode := ERT_START_CU
                count := 2
                data := [1, 0] }
  state := .running
  cu_idx := 0
  slot_idx := 0
  wait_count := 0
  chain_count := 0

/-- Concrete exec core with slot 0 busy for the claim C5 witness. -/
def c5_exec : Xocl.exec_core :=
  { Xocl.reset_exec with
    num_cus := 1
    num_cu_masks := 1
    slot_status := fun j => if j = 0 then 1 else 0
    cu_status := fun j => if j = 0 then 1 else 0
    submitted_cmds := fun s => if s = 0 then some 41 else none }

/-- Concrete host state with two clients for the claim C5 witness. -/
def c5_host : Xocl.host_state := ⟨[0, 2], [5]⟩

/-- Concrete exec core with slot 1 busy for the claim C6 witness. -/
def c6_exec : Xocl.exec_core :=
  { Xocl.reset_exec with slot_status := fun j => if j = 0 then 2 else 0 }

/-- Concrete START_KERNEL command with two CU mask words for the claim C7
witness: mask word 0 empty, mask word 1 selecting CU 34. -/
def c7_cmd : Xocl.xocl_cmd where
  id := 51
  packet := { basePacket with
                opcode := ERT_START_KERNEL
                count := 5
                extra_cu_masks := 1
                data := [0, 4, 0, 0xAA, 0xBB] }
  state := .queued
  cu_idx := -1
  slot_idx := -1
  wait_count := 0
  chain_count := 0

/-- Concrete exec core with four CU mask words and no busy CU for the claim
C7 witness. -/
def c7_exec : Xocl.exec_core :=
  { Xocl.reset_exec with num_cus := 64, num_cu_masks := 2 }

/-- Concrete zocl START_CU command with two packet CU mask words for claim
C7: mask word 0 empty, mask word 1 selecting CU 34. -/
def c7z_cmd : Zocl.sched_cmd where
  id := 52
  packet := { basePacket with
                opcode := ERT_START_CU
                count := 5
                extra_cu_masks := 1
                data := [0, 4, 0, 0xAA, 0xBB] }
  state := .queued
  cu_idx := -1
  slot_idx := -1
  cq_slot_idx := 0

/-- Concrete zocl exec core with a single CU mask word for the claim C7
counterexample: the zocl get_free_cu scans only num_cu_masks = 1 word and
never reaches the second CU mask word of the command. -/
def c7z_exec : Zocl.sched_exec_core where
  num_slots := 16
  num_cus := 32
  cu_shift_offset := 16
  cu_base_addr := 0
  polling_mode := true
  cq_interrupt := false
  cu_dma := false
  cu_isr := false
  configured := true
  slot_status := fun _ => 0
  num_slot_masks := 1
  cu_status := fun _ => 0
  num_cu_masks := 1
  ops := .penguin
  submitted_cmds := fun _ => none

/-- Concrete zocl exec core with two CU mask words and no busy CU for the
claim C7 witness. -/
def c7zw_exec : Zocl.sched_exec_core :=
  { c7z_exec with num_cus := 64, num_cu_masks := 2 }

/-- Concrete START_KERNEL command with one CU mask word and a three word
register map for the claim C8 witness. -/
def c8_cmd : Xocl.xocl_cmd where
  id := 61
  packet := { basePacket with
                opcode := ERT_START_KERNEL
                count := 4
                extra_cu_masks := 0
                data := [1, 0, 0xAA, 0xBB] }
  state := .queued
  cu_idx := -1
  slot_idx := -1
  wait_count := 0
  chain_count := 0

/-- Concrete exec core mapping CU 0 at address 0x10000 for the claim C8
witness. -/
def c8_exec : Xocl.exec_core :=
  { Xocl.reset_exec with
    num_cus := 1
    num_cu_masks := 1
    cu_addr_map := fun j => if j = 0 then 65536 else 0 }

/-- Concrete CONFIGURE command for claim C10: num_cus = 129 with the
matching count 134, which passes the count validation and overruns the 128
entry cu_addr_map. -/
def c10_cmd : Xocl.xocl_cmd where
  id := 71
  packet := { basePacket with
                opcode := ERT_CONFIGURE
                count := 134
                data := [4096, 129, 16, 0, 0] }
  state := .queued
  cu_idx := -1
  slot_idx := -1
  wait_count := 0
  chain_count := 0


/-! General lemmas about the arithmetic and bit helpers. -/

theorem U32_MOD_eq_pow : U32_MOD = 2 ^ 32 := by norm_num [U32_MOD]

theorem shiftLeft_one (pos : Nat) : 1 <<< pos = 2 ^ pos := by
  simp [Nat.shiftLeft_eq]

theorem slot_mask_idx_eq (i : Nat) : slot_mask_idx i = i / 32 := by
  simp [slot_mask_idx, Nat.shiftRight_eq_div_pow]

theorem slot_idx_in_mask_eq (i : Nat) : slot_idx_in_mask i = i % 32 := by
  simp only [slot_idx_in_mask, slot_mask_idx, Nat.shiftRight_eq_div_pow,
    Nat.shiftLeft_eq]
  omega

theorem bitScan_none (test : Nat → Bool) :
    ∀ (fuel j : Nat), (∀ k, j ≤ k → k < j + fuel → test k = false) →
      bitScan test j fuel = -1
  | 0, _, _ => rfl
  | fuel+1, j, h => by
    unfold bitScan
    rw [h j (Nat.le_refl j) (by omega)]
    simp only [Bool.false_eq_true, if_false]
    exact bitScan_none test fuel (j+1) (fun k hk1 hk2 => h k (by omega) (by omega))

theorem bitScan_found (test : Nat → Bool) :
    ∀ (fuel j i : Nat), j ≤ i → i < j + fuel → test i = true →
      (∀ k, j ≤ k → k < i → test k = false) →
      bitScan test j fuel = (i : Int)
  | 0, _, i, h1, h2, _, _ => absurd h2 (by omega)
  | fuel+1, j, i, h1, h2, h3, h4 => by
    unfold bitScan
    rcases Nat.eq_or_lt_of_le h1 with rfl | hlt
    · rw [h3]; simp
    · rw [h4 j (Nat.le_refl j) hlt]
      simp only [Bool.false_eq_true, if_false]
      exact bitScan_found test fuel (j+1) i hlt (by omega) h3
        (fun k hk1 hk2 => h4 k (by omega) hk2)

theorem ffs_or_neg_one_zero : ffs_or_neg_one 0 = -1 := by decide

theorem ffs_or_neg_one_eq (mask j : Nat) (hm : mask < U32_MOD)
    (hbit : mask.testBit j = true)
    (hleast : ∀ k, k < j → mask.testBit k = false) :
    ffs_or_neg_one mask = (j : Int) := by
  have hj : j < 32 := by
    by_contra hcon
    have hlt : mask < 2 ^ j :=
      lt_of_lt_of_le (U32_MOD_eq_pow ▸ hm)
        (Nat.pow_le_pow_right (by norm_num) (by omega))
    rw [Nat.testBit_lt_two_pow hlt] at hbit
    exact Bool.false_ne_true hbit
  exact bitScan_found _ 32 0 j (Nat.zero_le j) (by omega) hbit
    (fun k _ hk => hleast k hk)

theorem candBit (d b k : Nat) :
    ((d ||| b) ^^^ b).testBit k = (d.testBit k && !(b.testBit k)) := by
  rw [Nat.testBit_xor, Nat.testBit_or]
  cases d.testBit k <;> cases b.testBit k <;> rfl

theorem cand_lt (d b : Nat) (hd : d < U32_MOD) : (d ||| b) ^^^ b < U32_MOD := by
  rw [U32_MOD_eq_pow] at hd ⊢
  have hmod : ((d ||| b) ^^^ b) % 2 ^ 32 = (d ||| b) ^^^ b := by
    apply Nat.eq_of_testBit_eq
    intro i
    rw [Nat.testBit_mod_two_pow, candBit]
    by_cases hi : i < 32
    · simp [hi, candBit]
    · have hdi : d.testBit i = false :=
        Nat.testBit_lt_two_pow
          (lt_of_lt_of_le hd (Nat.pow_le_pow_right (by norm_num) (by omega)))
      simp [hi, hdi]
  calc ((d ||| b) ^^^ b) = ((d ||| b) ^^^ b) % 2 ^ 32 := hmod.symm
    _ < 2 ^ 32 := Nat.mod_lt _ (by positivity)

/-! Inversion of queued_to_running used by claims C1, C2 and C3. -/

theorem qtr_ok_running (cmd : Xocl.xocl_cmd) (exec : Xocl.exec_core)
    (env : Xocl.DevEnv) (poll : Nat) (r : Xocl.QtrRes)
    (h : Xocl.queued_to_running cmd exec env poll = .ok r) (hr : r.ok = true) :
    cmd.wait_count = 0 ∧ r.cmd.state = CmdState.running := by
  unfold Xocl.queued_to_running at h
  split at h
  · injection h with h'
    subst h'
    simp at hr
  · rename_i hw
    split at h
    · exact absurd h (by simp)
    · rename_i cfgres cmd1 exec1 heq
      split at h
      · injection h with h'
        subst h'
        simp at hr
      · unfold Xocl.qtr_finish at h
        split at h
        · injection h with h'
          subst h'
          exact ⟨by omega, rfl⟩
        · injection h with h'
          subst h'
          simp at hr

/-- Claim C3: a command transitions into the running state only with
wait_count zero, and a queued command with positive wait_count is left
completely untouched by the start attempt: no configure, no MMIO write, no
back-end submit, identical command, exec core and poll counter. -/
theorem c3_wait_count_gates_running :
    (∀ (cmd : Xocl.xocl_cmd) (exec : Xocl.exec_core) (env : Xocl.DevEnv)
       (poll : Nat),
       0 < cmd.wait_count →
       Xocl.queued_to_running cmd exec env poll = .ok ⟨cmd, exec, poll, [], false⟩)
    ∧ (∀ (cmd : Xocl.xocl_cmd) (exec : Xocl.exec_core) (env : Xocl.DevEnv)
         (poll : Nat) (r : Xocl.QtrRes),
       Xocl.queued_to_running cmd exec env poll = .ok r → r.ok = true →
       cmd.wait_count = 0 ∧ r.cmd.state = CmdState.running) := by
  constructor
  · intro cmd exec env poll h
    unfold Xocl.queued_to_running
    rw [if_pos (by omega)]
  · exact fun cmd exec env poll r h hr => qtr_ok_running cmd exec env poll r h hr

/-- Witness for claim C3 at concrete inputs: a command with two unresolved
dependencies is untouched, and a started KDS local command had wait_count
zero and is running. -/
theorem c3_wait_count_gates_running_witness :
    (0 < c3b_cmd.wait_count
      ∧ Xocl.queued_to_running c3b_cmd Xocl.reset_exec envPlain 0 =
          .ok ⟨c3b_cmd, Xocl.reset_exec, 0, [], false⟩)
    ∧ (c3w_cmd.wait_count = 0
      ∧ (exGet (Xocl.queued_to_running c3w_cmd Xocl.reset_exec envPlain 0)).cmd.state
          = CmdState.running) :=
  ⟨⟨by decide,
    c3_wait_count_gates_running.1 c3b_cmd Xocl.reset_exec envPlain 0 (by decide)⟩,
   c3_wait_count_gates_running.2 c3w_cmd Xocl.reset_exec envPlain 0
     (exGet (Xocl.queued_to_running c3w_cmd Xocl.reset_exec envPlain 0))
     (by rfl) (by rfl)⟩

/-- Claim C6 counterexample: release_slot_idx on a bitmap whose bit is clear
sets the bit instead of leaving it clear, because the code XORs the bit in:
releasing slot 0 of the reset core (all slots free, 0 below num_slots)
leaves bit 0 of mask word 0 set, while the claim demands it be clear. -/
theorem c6_counterexample :
    0 < Xocl.reset_exec.num_slots
    ∧ ((Xocl.release_slot_idx Xocl.reset_exec 0).slot_status 0).testBit 0 = true := by
  decide

/-- Claim C6 (amended): for a slot index i below num_slots whose status bit
is currently set (a busy slot, the only state release_slot_idx is applied to
by the code), release_slot_idx clears bit i mod 32 of mask word i / 32 and
leaves every other bit of the bitmap unchanged.  On a clear bit the XOR of
the code would set the bit instead, as the counterexample shows. -/
theorem c6_release_clears_busy (exec : Xocl.exec_core) (i : Nat)
    (_hn : i < exec.num_slots)
    (hbusy : (exec.slot_status (i / 32)).testBit (i % 32) = true) :
    ((Xocl.release_slot_idx exec i).slot_status (i / 32)).testBit (i % 32) = false
    ∧ (∀ m b, ¬(m = i / 32 ∧ b = i % 32) →
        ((Xocl.release_slot_idx exec i).slot_status m).testBit b
          = (exec.slot_status m).testBit b) := by
  have hmask := slot_mask_idx_eq i
  have hpos := slot_idx_in_mask_eq i
  constructor
  · simp only [Xocl.release_slot_idx, hmask, hpos, eq_self_iff_true, if_true,
      shiftLeft_one]
    rw [Nat.testBit_xor, Nat.testBit_two_pow]
    simp [hbusy]
  · intro m b hmb
    by_cases hm : m = i / 32
    · subst hm
      have hb : b ≠ i % 32 := fun hb => hmb ⟨rfl, hb⟩
      simp only [Xocl.release_slot_idx, hmask, hpos, eq_self_iff_true, if_true,
        shiftLeft_one]
      rw [Nat.testBit_xor, Nat.testBit_two_pow]
      simp [Ne.symm hb]
    · simp only [Xocl.release_slot_idx, hmask, hpos, if_neg hm]

/-- Witness for claim C6 at a concrete input: slot 1 is busy in c6_exec and
releasing it clears its bit. -/
theorem c6_release_clears_busy_witness :
    (1 < c6_exec.num_slots
      ∧ (c6_exec.slot_status (1 / 32)).testBit (1 % 32) = true)
    ∧ ((Xocl.release_slot_idx c6_exec 1).slot_status (1 / 32)).testBit (1 % 32)
        = false :=
  ⟨⟨by decide, by decide⟩,
   (c6_release_clears_busy c6_exec 1 (by decide) (by decide)).1⟩

/-- Claim C1: evaluation of the code at the failing input.  With one free CU
and every command queue slot busy, penguin_submit succeeds in get_free_cu
(CU 0 is allocated, its busy bit set), then acquire_slot_idx returns -1 and
penguin_submit returns failure WITHOUT releasing the CU busy bit: cu_status
word 0 is 1 afterwards while it was 0 before, contradicting the claim that
cu_status is left unchanged overall.  The command does stay queued. -/
theorem c1_cu_leak_on_slot_failure :
    (Xocl.penguin_submit c1_cmd c1_exec).ok = false
    ∧ (Xocl.penguin_submit c1_cmd c1_exec).cmd.cu_idx = 0
    ∧ (Xocl.penguin_submit c1_cmd c1_exec).exec.cu_status 0 = 1
    ∧ c1_exec.cu_status 0 = 0
    ∧ exOk (Xocl.queued_to_running c1_cmd c1_exec envPlain 0) = true
    ∧ (exGet (Xocl.queued_to_running c1_cmd c1_exec envPlain 0)).ok = false
    ∧ (exGet (Xocl.queued_to_running c1_cmd c1_exec envPlain 0)).cmd.state
        = CmdState.queued
    ∧ (exGet (Xocl.queued_to_running c1_cmd c1_exec envPlain 0)).exec.cu_status 0
        = 1 := by
  decide

/-- The zocl slot acquire loop changes only the slot_status bitmap of the
core. -/
theorem z_acquire_loop_shape (exec : Zocl.sched_exec_core) :
    ∀ (fuel mask_idx : Nat), ∃ ss,
      (Zocl.acquire_slot_idx_loop exec mask_idx fuel).1 =
        { exec with slot_status := ss }
  | 0, mask_idx => ⟨exec.slot_status, rfl⟩
  | fuel+1, mask_idx => by
    simp only [Zocl.acquire_slot_idx_loop]
    split
    · exact z_acquire_loop_shape exec fuel (mask_idx+1)
    · exact ⟨_, rfl⟩

/-- The zocl configure rejects with result 1 and an untouched core whenever
the core is already configured, on every path of its guard chain. -/
theorem zocl_cfg_reject (cmd : Zocl.sched_cmd) (exec : Zocl.sched_exec_core)
    (env : Zocl.ZEnv) (hop : Zocl.opcode cmd = Zocl.OP_CONFIGURE)
    (hconf : exec.configured = true) :
    Zocl.configure cmd exec env = .ok (1, exec, []) := by
  unfold Zocl.configure
  rw [if_neg (by simp [hop])]
  split
  · rfl
  · split
    · rfl
    · rfl

/-- Claim C2 counterexample: on the zocl scheduler a CONFIGURE command
processed while the core is already configured does not transition to the
error state; the rejection of configure is ignored and the command is
submitted and enters the running state. -/
theorem c2_counterexample_zocl :
    Zocl.opcode c2z_cmd = Zocl.OP_CONFIGURE
    ∧ c2z_exec.configured = true
    ∧ exOk (Zocl.queued_to_running c2z_cmd c2z_exec c2z_env 0) = true
    ∧ (exGet (Zocl.queued_to_running c2z_cmd c2z_exec c2z_env 0)).cmd.state
        = CmdState.running
    ∧ ¬((exGet (Zocl.queued_to_running c2z_cmd c2z_exec c2z_env 0)).cmd.state
        = CmdState.error) := by
  decide

/-- Claim C2 (amended): a CONFIGURE command processed when the configured
flag is already set is rejected by configure with the core untouched in both
schedulers; in the xocl scheduler the command then transitions to the error
state, while in the zocl scheduler the rejection is ignored and the command
is submitted and transitions to the running state, with every configuration
field of the core preserved. -/
theorem c2_second_configure_amended :
    (∀ (cmd : Xocl.xocl_cmd) (exec : Xocl.exec_core) (env : Xocl.DevEnv)
       (poll : Nat),
      Xocl.opcode cmd = ERT_CONFIGURE → cmd.wait_count = 0 →
      exec.configured = true →
      Xocl.configure cmd exec env = .ok (1, cmd, exec)
      ∧ Xocl.queued_to_running cmd exec env poll =
          .ok ⟨Xocl.set_cmd_state cmd CmdState.error, exec, poll, [], false⟩)
    ∧ (∀ (cmd : Zocl.sched_cmd) (exec : Zocl.sched_exec_core) (env : Zocl.ZEnv)
         (poll : Nat) (r : Zocl.ZQtrRes),
      Zocl.opcode cmd = Zocl.OP_CONFIGURE → exec.configured = true →
      Zocl.queued_to_running cmd exec env poll = .ok r →
      Zocl.configure cmd exec env = .ok (1, exec, [])
      ∧ r.ok = true
      ∧ r.cmd.state = CmdState.running
      ∧ r.exec.num_slots = exec.num_slots
      ∧ r.exec.num_cus = exec.num_cus
      ∧ r.exec.cu_shift_offset = exec.cu_shift_offset
      ∧ r.exec.cu_base_addr = exec.cu_base_addr
      ∧ r.exec.num_cu_masks = exec.num_cu_masks
      ∧ r.exec.configured = true
      ∧ r.exec.ops = exec.ops
      ∧ r.exec.polling_mode = exec.polling_mode) := by
  constructor
  · intro cmd exec env poll hop hw hconf
    have hcfg : Xocl.configure cmd exec env = .ok (1, cmd, exec) := by
      unfold Xocl.configure
      rw [if_neg (by simp [hop]), if_pos hconf]
    refine ⟨hcfg, ?_⟩
    unfold Xocl.queued_to_running
    rw [if_neg (by omega), if_pos hop, hcfg]
    dsimp only
    rw [if_pos (by omega : (1:Nat) ≠ 0)]
  · intro cmd exec env poll r hop hconf h
    refine ⟨zocl_cfg_reject cmd exec env hop hconf, ?_⟩
    unfold Zocl.queued_to_running at h
    rw [if_pos hop, zocl_cfg_reject cmd exec env hop hconf] at h
    dsimp only at h
    obtain ⟨ss, hss⟩ := z_acquire_loop_shape exec exec.num_slot_masks 0
    cases hops : exec.ops with
    | penguin =>
      unfold Zocl.z_ops_submit at h
      rw [hops] at h
      dsimp only at h
      unfold Zocl.penguin_submit at h
      rw [if_pos hop] at h
      unfold Zocl.z_finish at h
      dsimp only at h
      rw [if_pos rfl] at h
      injection h with h2
      subst h2
      simp [Zocl.set_cmd_int_state, Zocl.acquire_slot_idx, hss, hconf, hops]
    | psErt =>
      unfold Zocl.z_ops_submit at h
      rw [hops] at h
      dsimp only at h
      unfold Zocl.ps_ert_submit at h
      rw [if_pos hop] at h
      unfold Zocl.z_finish at h
      dsimp only at h
      rw [if_pos rfl] at h
      injection h with h2
      subst h2
      simp [Zocl.set_cmd_int_state, Zocl.acquire_slot_idx, hss, hconf, hops]

/-- Witness for claim C2 at concrete inputs: the xocl command errors, the
zocl command runs. -/
theorem c2_second_configure_amended_witness :
    (Xocl.queued_to_running c2x_cmd c2x_exec envPlain 0 =
        .ok ⟨Xocl.set_cmd_state c2x_cmd CmdState.error, c2x_exec, 0, [], false⟩)
    ∧ (exGet (Zocl.queued_to_running c2z_cmd c2z_exec c2z_env 0)).cmd.state
        = CmdState.running :=
  ⟨(c2_second_configure_amended.1 c2x_cmd c2x_exec envPlain 0 rfl rfl rfl).2,
   (c2_second_configure_amended.2 c2z_cmd c2z_exec c2z_env 0
      (exGet (Zocl.queued_to_running c2z_cmd c2z_exec c2z_env 0)) rfl rfl
      (by rfl)).2.2.1⟩

/-- Claim C10: a CONFIGURE packet with num_cus = 129 and count = 134 passes
the count validation on the unconfigured reset core, and the cu_addr_map
copy loop of configure, which has no bound check against MAX_CUS = 128, hits
the out-of-bounds guard of the embedding; the same error is reached through
the worker step queued_to_running that processes commands arriving from the
public submit interface. -/
theorem c10_oob_reachable :
    c10_cmd.packet.count = 5 + Xocl.cfg_num_cus c10_cmd
    ∧ MAX_CUS < Xocl.cfg_num_cus c10_cmd
    ∧ Xocl.reset_exec.configured = false
    ∧ isOobErr (Xocl.configure c10_cmd Xocl.reset_exec envPlain) = true
    ∧ isOobErr (Xocl.queued_to_running c10_cmd Xocl.reset_exec envPlain 0) = true := by
  decide

/-- Description of a successful cu_addr_map copy: entries i to i + fuel - 1
hold the packet CU addresses, everything else is untouched. -/
theorem copy_cu_addrs_ok (cmd : Xocl.xocl_cmd) :
    ∀ (fuel i : Nat) (m m' : Nat → Nat),
      Xocl.copy_cu_addrs cmd m i fuel = .ok m' →
      ∀ j, m' j = if i ≤ j ∧ j < i + fuel then cmd.packet.data.getD (5 + j) 0
                  else m j
  | 0, i, m, m', h, j => by
    unfold Xocl.copy_cu_addrs at h
    injection h with h'
    subst h'
    rw [if_neg (by omega)]
  | fuel+1, i, m, m', h, j => by
    unfold Xocl.copy_cu_addrs at h
    split at h
    · have ih := copy_cu_addrs_ok cmd fuel (i+1) _ m' h j
      rw [ih]
      by_cases h1 : i + 1 ≤ j ∧ j < i + 1 + fuel
      · rw [if_pos h1, if_pos (by omega)]
      · rw [if_neg h1]
        by_cases h2 : j = i
        · subst h2
          rw [if_pos rfl, if_pos (by omega)]
        · rw [if_neg h2, if_neg (by omega)]
    · exact absurd h (by simp)

/-- The cu_addr_map copy fails with the out-of-bounds error as soon as it
must write at or beyond MAX_CUS. -/
theorem copy_cu_addrs_err (cmd : Xocl.xocl_cmd) :
    ∀ (fuel i : Nat) (m : Nat → Nat), MAX_CUS < i + fuel → 1 ≤ fuel →
      Xocl.copy_cu_addrs cmd m i fuel = .error .oobWrite
  | 0, _, _, _, hf => absurd hf (by omega)
  | fuel+1, i, m, hi, _ => by
    unfold Xocl.copy_cu_addrs
    split
    · rename_i hlt
      exact copy_cu_addrs_err cmd fuel (i+1) _ (by omega) (by unfold MAX_CUS at *; omega)
    · rfl

/-- Evaluation of the u32 mask count expression for 1 <= n <= 128. -/
theorem maskCount_eq (n : Nat) (h1 : 1 ≤ n) (h2 : n ≤ MAX_CUS) :
    maskCount n = (n + 31) / 32 := by
  unfold maskCount U32_MOD
  unfold MAX_CUS at h2
  have hm : (n + (4294967296 - 1)) % 4294967296 = n - 1 := by omega
  rw [hm, Nat.shiftRight_eq_div_pow]
  have : (2:Nat) ^ 5 = 32 := by norm_num
  rw [this]
  omega

/-- Claim C4 counterexample: the post-configure laws fail as universally
stated.  First, a CONFIGURE with num_cus = 0 (count = 5) is accepted, yet
the unsigned expression ((num_cus - 1) shifted right by 5) + 1 wraps and
num_cu_masks becomes 2 to the power 27 instead of the ceiling 0.  Second, on
a device with a CDMA engine a CONFIGURE with num_cus = 1 is accepted but
configure appends the CDMA CU and leaves num_cus = 2, not 1. -/
theorem c4_counterexample :
    exOk (Xocl.configure c4a_cmd Xocl.reset_exec envPlain) = true
    ∧ (exGet (Xocl.configure c4a_cmd Xocl.reset_exec envPlain)).1 = 0
    ∧ Xocl.cfg_num_cus c4a_cmd = 0
    ∧ (exGet (Xocl.configure c4a_cmd Xocl.reset_exec envPlain)).2.2.num_cu_masks
        = 134217728
    ∧ ¬((exGet (Xocl.configure c4a_cmd Xocl.reset_exec envPlain)).2.2.num_cu_masks
        = (0 + 31) / 32)
    ∧ exOk (Xocl.configure c4b_cmd Xocl.reset_exec envCdma) = true
    ∧ (exGet (Xocl.configure c4b_cmd Xocl.reset_exec envCdma)).1 = 0
    ∧ Xocl.cfg_num_cus c4b_cmd = 1
    ∧ (exGet (Xocl.configure c4b_cmd Xocl.reset_exec envCdma)).2.2.num_cus = 2 := by
  decide

/-- Claim C4 (amended): for every CONFIGURE command with num_cus = N, 1 <= N,
accepted with success by configure on a device without the CDMA engine, the
core afterwards satisfies num_cus = N, N is at most MAX_CUS, num_cu_masks is
the ceiling of N over 32, and cu_addr_map entry i holds CU address word i of
the payload for every i below N.  For N = 0 the unsigned num_cu_masks
expression wraps, and with a CDMA engine num_cus ends up N + 1, as the
counterexample shows. -/
theorem c4_configure_post_amended (cmd : Xocl.xocl_cmd) (exec : Xocl.exec_core)
    (env : Xocl.DevEnv) (cmd' : Xocl.xocl_cmd) (exec' : Xocl.exec_core)
    (h : Xocl.configure cmd exec env = .ok (0, cmd', exec'))
    (hcdma : env.cdma = false) (hN : 1 ≤ Xocl.cfg_num_cus cmd) :
    exec'.num_cus = Xocl.cfg_num_cus cmd
    ∧ Xocl.cfg_num_cus cmd ≤ MAX_CUS
    ∧ exec'.num_cu_masks = (Xocl.cfg_num_cus cmd + 31) / 32
    ∧ ∀ i, i < Xocl.cfg_num_cus cmd →
        exec'.cu_addr_map i = cmd.packet.data.getD (5 + i) 0 := by
  unfold Xocl.configure at h
  split at h
  · exact absurd h (by simp)
  · split at h
    · exact absurd h (by simp)
    · split at h
      · exact absurd h (by simp)
      · split at h
        · exact absurd h (by simp)
        · dsimp only at h
          split at h
          · exact absurd h (by simp)
          · rename_i map1 heq
            rw [hcdma] at h
            simp only [Bool.false_eq_true, if_false] at h
            have hbound : Xocl.cfg_num_cus cmd ≤ MAX_CUS := by
              by_contra hgt
              rw [copy_cu_addrs_err cmd (Xocl.cfg_num_cus cmd) 0 exec.cu_addr_map
                (by omega) (by omega)] at heq
              exact absurd heq (by simp)
            have hmap := copy_cu_addrs_ok cmd (Xocl.cfg_num_cus cmd) 0
              exec.cu_addr_map map1 heq
            split at h
            · simp only [Except.ok.injEq, Prod.mk.injEq] at h
              obtain ⟨-, -, hexec⟩ := h
              subst hexec
              refine ⟨rfl, hbound, maskCount_eq _ hN hbound, ?_⟩
              intro i hi
              have := hmap i
              rw [if_pos (by omega)] at this
              simpa using this
            · simp only [Except.ok.injEq, Prod.mk.injEq] at h
              obtain ⟨-, -, hexec⟩ := h
              subst hexec
              refine ⟨rfl, hbound, maskCount_eq _ hN hbound, ?_⟩
              intro i hi
              have := hmap i
              rw [if_pos (by omega)] at this
              simpa using this

/-- Witness for claim C4 at a concrete input: configuring one CU at address
0x10000 on the reset core of a device without CDMA yields num_cus 1, one CU
mask and the address in entry 0 of the map. -/
theorem c4_configure_post_amended_witness :
    (exGet (Xocl.configure c4b_cmd Xocl.reset_exec envPlain)).2.2.num_cus = 1
    ∧ (exGet (Xocl.configure c4b_cmd Xocl.reset_exec envPlain)).2.2.num_cu_masks = 1
    ∧ (exGet (Xocl.configure c4b_cmd Xocl.reset_exec envPlain)).2.2.cu_addr_map 0
        = 65536 := by
  have h := c4_configure_post_amended c4b_cmd Xocl.reset_exec envPlain
    (exGet (Xocl.configure c4b_cmd Xocl.reset_exec envPlain)).2.1
    (exGet (Xocl.configure c4b_cmd Xocl.reset_exec envPlain)).2.2
    (by rfl) rfl (by decide)
  exact ⟨h.1.trans (by decide), (h.2.2.1).trans (by decide),
    (h.2.2.2 0 (by decide)).trans (by decide)⟩

/-- The configure_cu register map loop is the ascending write list starting
at word index i. -/
theorem cfg_cu_loop_eq (cmd : Xocl.xocl_cmd) (addr : Nat) :
    ∀ (fuel i : Nat),
      Xocl.configure_cu_loop cmd addr i fuel =
        (List.range' i fuel).map
          (fun k => (addr + 4 * k,
                     Xocl.skData cmd (cmd.packet.extra_cu_masks + k)))
  | 0, i => by simp [Xocl.configure_cu_loop]
  | fuel+1, i => by
    rw [List.range'_succ, List.map_cons]
    unfold Xocl.configure_cu_loop
    rw [cfg_cu_loop_eq cmd addr fuel (i+1)]
    have hsh : i <<< 2 = 4 * i := by rw [Nat.shiftLeft_eq]; ring
    rw [hsh]

/-- Claim C8: for a start_kernel command with register map size n the MMIO
write trace of configure_cu is exactly register map word i written to the CU
address plus 4 times i, for i from 1 to n - 1 in increasing order, followed
by the AP_START write of 1 to the CU base address; register map word 0 is
never transferred. -/
theorem c8_configure_cu_trace (cmd : Xocl.xocl_cmd) (exec : Xocl.exec_core)
    (cu : Nat) (hop : Xocl.opcode cmd = ERT_START_KERNEL) :
    Xocl.configure_cu cmd exec cu =
      (List.range' 1 (Xocl.regmap_size cmd - 1)).map
        (fun i => (Xocl.cu_idx_to_addr exec cu + 4 * i, Xocl.regmapWord cmd i))
      ++ [(Xocl.cu_idx_to_addr exec cu, 1)] := by
  unfold Xocl.configure_cu
  dsimp only
  rw [cfg_cu_loop_eq]
  have hfun : (fun k => (Xocl.cu_idx_to_addr exec cu + 4 * k,
        Xocl.skData cmd (cmd.packet.extra_cu_masks + k)))
      = (fun i => (Xocl.cu_idx_to_addr exec cu + 4 * i, Xocl.regmapWord cmd i)) := by
    funext k
    simp [Xocl.skData, Xocl.regmapWord, Xocl.cu_masks, hop, Nat.add_assoc]
  rw [hfun]

/-- Witness for claim C8 at a concrete input: a start_kernel command with
one CU mask and register map of three words on CU 0 at address 0x10000. -/
theorem c8_configure_cu_trace_witness :
    Xocl.opcode c8_cmd = ERT_START_KERNEL
    ∧ Xocl.configure_cu c8_cmd c8_exec 0 =
        (List.range' 1 (Xocl.regmap_size c8_cmd - 1)).map
          (fun i => (Xocl.cu_idx_to_addr c8_exec 0 + 4 * i, Xocl.regmapWord c8_cmd i))
        ++ [(Xocl.cu_idx_to_addr c8_exec 0, 1)] :=
  ⟨rfl, c8_configure_cu_trace c8_cmd c8_exec 0 rfl⟩

/-- Claim C5: terminal dispositions.  A command marked complete notifies the
host (every client trigger counter is incremented exactly once, also when a
chain of waiters is triggered) and is then recycled to the freelist by
complete_to_free; a command that ends in the error state is recycled with a
host notification by error_to_free; a command that ends in the abort state
is recycled without any host notification by abort_to_free. -/
theorem c5_terminal_dispositions :
    (∀ (cmd : Xocl.xocl_cmd) (chain : List Xocl.xocl_cmd)
       (exec : Xocl.exec_core) (env : Xocl.DevEnv) (host : Xocl.host_state)
       (poll : Nat) (out : Xocl.MarkRes),
      Xocl.mark_cmd_complete cmd chain exec env host poll = .ok out →
      out.host.triggers = host.triggers.map (fun t => t + 1)
      ∧ out.host.free_cmds = host.free_cmds
      ∧ out.cmd.state = CmdState.completed
      ∧ out.cmd.id = cmd.id
      ∧ (Xocl.complete_to_free out.cmd out.host).free_cmds
          = host.free_cmds ++ [cmd.id]
      ∧ (Xocl.complete_to_free out.cmd out.host).triggers = out.host.triggers)
    ∧ (∀ (cmd : Xocl.xocl_cmd) (h : Xocl.host_state),
      (Xocl.error_to_free cmd h).triggers = h.triggers.map (fun t => t + 1)
      ∧ (Xocl.error_to_free cmd h).free_cmds = h.free_cmds ++ [cmd.id])
    ∧ (∀ (cmd : Xocl.xocl_cmd) (h : Xocl.host_state),
      (Xocl.abort_to_free cmd h).triggers = h.triggers
      ∧ (Xocl.abort_to_free cmd h).free_cmds = h.free_cmds ++ [cmd.id]) := by
  refine ⟨?_, ?_, ?_⟩
  · intro cmd chain exec env host poll out h
    unfold Xocl.mark_cmd_complete at h
    split at h
    · exact absurd h (by simp)
    · rename_i cmd2 r heq
      injection h with h'
      subst h'
      unfold Xocl.trigger_chain at heq
      split at heq
      · exact absurd heq (by simp)
      · rename_i r' heq2
        simp only [Except.ok.injEq, Prod.mk.injEq] at heq
        obtain ⟨hcmd2, -⟩ := heq
        subst hcmd2
        simp [Xocl.notify_host, Xocl.set_cmd_state, Xocl.complete_to_free,
          Xocl.cleanup_exec, Xocl.recycle_cmd]
  · intro cmd h
    simp [Xocl.error_to_free, Xocl.complete_to_free, Xocl.cleanup_exec,
      Xocl.recycle_cmd, Xocl.notify_host]
  · intro cmd h
    simp [Xocl.abort_to_free, Xocl.complete_to_free, Xocl.cleanup_exec,
      Xocl.recycle_cmd]

/-- Witness for claim C5 at a concrete input: completing the command in slot
0 with an empty chain increments both client triggers, and the free paths
append the command id. -/
theorem c5_terminal_dispositions_witness :
    (exOk (Xocl.mark_cmd_complete c5_cmd [] c5_exec envPlain c5_host 1) = true
      ∧ (exGet (Xocl.mark_cmd_complete c5_cmd [] c5_exec envPlain c5_host 1)).host.triggers
          = c5_host.triggers.map (fun t => t + 1))
    ∧ (Xocl.error_to_free c5_cmd c5_host).free_cmds = c5_host.free_cmds ++ [c5_cmd.id]
    ∧ (Xocl.abort_to_free c5_cmd c5_host).triggers = c5_host.triggers :=
  ⟨⟨by decide,
    (c5_terminal_dispositions.1 c5_cmd [] c5_exec envPlain c5_host 1
      (exGet (Xocl.mark_cmd_complete c5_cmd [] c5_exec envPlain c5_host 1))
      (by rfl)).1⟩,
   (c5_terminal_dispositions.2.1 c5_cmd c5_host).2,
   (c5_terminal_dispositions.2.2 c5_cmd c5_host).1⟩

/-- The get_free_cu scan returns -1 and an untouched core when every scanned
word has an empty candidate mask. -/
theorem gfc_loop_none (cmd : Xocl.xocl_cmd) (exec : Xocl.exec_core) :
    ∀ (fuel start : Nat),
      (∀ m, start ≤ m → m < start + fuel → cu_candidates cmd exec m = 0) →
      Xocl.get_free_cu_loop cmd exec start fuel = (exec, -1)
  | 0, _, _ => rfl
  | fuel+1, start, h => by
    have h0 : (cmd.packet.data.getD start 0 ||| exec.cu_status start)
        ^^^ exec.cu_status start = 0 := h start (Nat.le_refl _) (by omega)
    unfold Xocl.get_free_cu_loop
    dsimp only
    rw [h0, ffs_or_neg_one_zero, if_neg (by decide)]
    exact gfc_loop_none cmd exec fuel (start+1)
      (fun m h1 h2 => h m (by omega) (by omega))

/-- The get_free_cu scan stops at the first word with a candidate, flips the
first candidate bit of that word in cu_status and returns the global CU
index of that bit. -/
theorem gfc_loop_found (cmd : Xocl.xocl_cmd) (exec : Xocl.exec_core)
    (m0 j : Nat) (hd : cmd.packet.data.getD m0 0 < U32_MOD)
    (hbit : (cu_candidates cmd exec m0).testBit j = true)
    (hleast : ∀ k, k < j → (cu_candidates cmd exec m0).testBit k = false) :
    ∀ (fuel start : Nat), start ≤ m0 → m0 < start + fuel →
      (∀ m, start ≤ m → m < m0 → cu_candidates cmd exec m = 0) →
      Xocl.get_free_cu_loop cmd exec start fuel =
        ({ exec with cu_status := fun x =>
             if x = m0 then exec.cu_status m0 ^^^ (1 <<< j)
             else exec.cu_status x },
         ((cu_idx_from_mask j m0 : Nat) : Int))
  | 0, _, _, h2, _ => absurd h2 (by omega)
  | fuel+1, start, h1, h2, h3 => by
    unfold Xocl.get_free_cu_loop
    dsimp only
    rcases Nat.eq_or_lt_of_le h1 with heq | hlt
    · subst heq
      rw [show ffs_or_neg_one ((cmd.packet.data.getD start 0 ||| exec.cu_status start)
            ^^^ exec.cu_status start) = (j : Int) from
          ffs_or_neg_one_eq _ j (cand_lt _ _ hd) hbit hleast]
      rw [if_pos (by positivity)]
      simp
    · have h0 : (cmd.packet.data.getD start 0 ||| exec.cu_status start)
          ^^^ exec.cu_status start = 0 := h3 start (Nat.le_refl _) hlt
      rw [h0, ffs_or_neg_one_zero, if_neg (by decide)]
      exact gfc_loop_found cmd exec m0 j hd hbit hleast fuel (start+1) hlt
        (by omega) (fun m hm1 hm2 => h3 m (by omega) hm2)

/-- The zocl get_free_cu scan returns -1 and an untouched core when every
scanned word has an empty candidate mask. -/
theorem z_gfc_loop_none (cmd : Zocl.sched_cmd) (exec : Zocl.sched_exec_core) :
    ∀ (fuel start : Nat),
      (∀ m, start ≤ m → m < start + fuel → z_cu_candidates cmd exec m = 0) →
      Zocl.get_free_cu_loop cmd exec start fuel = (exec, -1)
  | 0, _, _ => rfl
  | fuel+1, start, h => by
    have h0 : (cmd.packet.data.getD start 0 ||| exec.cu_status start)
        ^^^ exec.cu_status start = 0 := h start (Nat.le_refl _) (by omega)
    unfold Zocl.get_free_cu_loop
    dsimp only
    rw [h0, ffs_or_neg_one_zero, if_neg (by decide)]
    exact z_gfc_loop_none cmd exec fuel (start+1)
      (fun m h1 h2 => h m (by omega) (by omega))

/-- The zocl get_free_cu scan stops at the first scanned word with a
candidate, flips the first candidate bit of that word in cu_status and
returns the global CU index of that bit. -/
theorem z_gfc_loop_found (cmd : Zocl.sched_cmd) (exec : Zocl.sched_exec_core)
    (m0 j : Nat) (hd : cmd.packet.data.getD m0 0 < U32_MOD)
    (hbit : (z_cu_candidates cmd exec m0).testBit j = true)
    (hleast : ∀ k, k < j → (z_cu_candidates cmd exec m0).testBit k = false) :
    ∀ (fuel start : Nat), start ≤ m0 → m0 < start + fuel →
      (∀ m, start ≤ m → m < m0 → z_cu_candidates cmd exec m = 0) →
      Zocl.get_free_cu_loop cmd exec start fuel =
        ({ exec with cu_status := fun x =>
             if x = m0 then exec.cu_status m0 ^^^ (1 <<< j)
             else exec.cu_status x },
         ((cu_idx_from_mask j m0 : Nat) : Int))
  | 0, _, _, h2, _ => absurd h2 (by omega)
  | fuel+1, start, h1, h2, h3 => by
    unfold Zocl.get_free_cu_loop
    dsimp only
    rcases Nat.eq_or_lt_of_le h1 with heq | hlt
    · subst heq
      rw [show ffs_or_neg_one ((cmd.packet.data.getD start 0 ||| exec.cu_status start)
            ^^^ exec.cu_status start) = (j : Int) from
          ffs_or_neg_one_eq _ j (cand_lt _ _ hd) hbit hleast]
      rw [if_pos (by positivity)]
      simp
    · have h0 : (cmd.packet.data.getD start 0 ||| exec.cu_status start)
          ^^^ exec.cu_status start = 0 := h3 start (Nat.le_refl _) hlt
      rw [h0, ffs_or_neg_one_zero, if_neg (by decide)]
      exact z_gfc_loop_found cmd exec m0 j hd hbit hleast fuel (start+1) hlt
        (by omega) (fun m hm1 hm2 => h3 m (by omega) hm2)

/-- Claim C7 counterexample: the zocl get_free_cu does not scan the CU mask
words of the command; it scans the num_cu_masks words of the exec core.  On
a core with a single CU mask word, a START_CU command with two CU mask words
whose second word offers a free CU (candidate bit 2 of word 1, CU 34) gets
-1 and an unchanged cu_status, where the claim requires the global index of
that free CU with its busy bit set. -/
theorem c7_counterexample_zocl :
    Zocl.opcode c7z_cmd = Zocl.OP_START_CU
    ∧ Zocl.cu_masks c7z_cmd = 2
    ∧ (z_cu_candidates c7z_cmd c7z_exec 1).testBit 2 = true
    ∧ c7z_exec.num_cu_masks = 1
    ∧ Zocl.get_free_cu c7z_cmd c7z_exec = (c7z_exec, -1) :=
  ⟨by decide, by decide, by decide, by decide, rfl⟩

/-- Claim C7 (amended): both implementations compute candidates =
(cmd_mask OR busy) XOR busy per scanned word, stop at the first word with a
candidate, return the global index of its least significant candidate bit
(which was free in cu_status and is set afterwards, every other word
unchanged), and return -1 with cu_status unchanged when no scanned word
yields a candidate.  They differ in which words they scan: the xocl
get_free_cu scans the CU mask words of the command packet, as the claim
states, while the zocl get_free_cu scans the first num_cu_masks words of the
packet, with num_cu_masks taken from the exec core, not from the command
(the counterexample shows the divergence). -/
theorem c7_get_free_cu_spec :
    (∀ (cmd : Xocl.xocl_cmd) (exec : Xocl.exec_core),
      (∀ m, m < Xocl.cu_masks cmd → cmd.packet.data.getD m 0 < U32_MOD) →
      ((∀ m, m < Xocl.cu_masks cmd → cu_candidates cmd exec m = 0) →
        Xocl.get_free_cu cmd exec = (exec, -1))
      ∧ (∀ m0 j, m0 < Xocl.cu_masks cmd →
          (∀ m, m < m0 → cu_candidates cmd exec m = 0) →
          (cu_candidates cmd exec m0).testBit j = true →
          (∀ k, k < j → (cu_candidates cmd exec m0).testBit k = false) →
          (Xocl.get_free_cu cmd exec).2 = ((cu_idx_from_mask j m0 : Nat) : Int)
          ∧ (Xocl.get_free_cu cmd exec).1.cu_status m0
              = exec.cu_status m0 ^^^ (1 <<< j)
          ∧ (∀ m, m ≠ m0 →
              (Xocl.get_free_cu cmd exec).1.cu_status m = exec.cu_status m)
          ∧ (exec.cu_status m0).testBit j = false
          ∧ ((Xocl.get_free_cu cmd exec).1.cu_status m0).testBit j = true))
    ∧ (∀ (cmd : Zocl.sched_cmd) (exec : Zocl.sched_exec_core),
      (∀ m, m < exec.num_cu_masks → cmd.packet.data.getD m 0 < U32_MOD) →
      ((∀ m, m < exec.num_cu_masks → z_cu_candidates cmd exec m = 0) →
        Zocl.get_free_cu cmd exec = (exec, -1))
      ∧ (∀ m0 j, m0 < exec.num_cu_masks →
          (∀ m, m < m0 → z_cu_candidates cmd exec m = 0) →
          (z_cu_candidates cmd exec m0).testBit j = true →
          (∀ k, k < j → (z_cu_candidates cmd exec m0).testBit k = false) →
          (Zocl.get_free_cu cmd exec).2 = ((cu_idx_from_mask j m0 : Nat) : Int)
          ∧ (Zocl.get_free_cu cmd exec).1.cu_status m0
              = exec.cu_status m0 ^^^ (1 <<< j)
          ∧ (∀ m, m ≠ m0 →
              (Zocl.get_free_cu cmd exec).1.cu_status m = exec.cu_status m)
          ∧ (exec.cu_status m0).testBit j = false
          ∧ ((Zocl.get_free_cu cmd exec).1.cu_status m0).testBit j = true)) := by
  constructor
  · intro cmd exec h32
    constructor
    · intro hall
      exact gfc_loop_none cmd exec (Xocl.cu_masks cmd) 0
        (fun m _ hm => hall m (by omega))
    · intro m0 j hm0 hprev hbit hleast
      have hbusy : (exec.cu_status m0).testBit j = false := by
        unfold cu_candidates at hbit
        rw [candBit] at hbit
        simp only [Bool.and_eq_true, Bool.not_eq_eq_eq_not, Bool.not_true] at hbit
        exact hbit.2
      have hloop := gfc_loop_found cmd exec m0 j (h32 m0 hm0) hbit hleast
        (Xocl.cu_masks cmd) 0 (Nat.zero_le _) (by omega)
        (fun m _ hm => hprev m hm)
      have hget : Xocl.get_free_cu cmd exec =
          ({ exec with cu_status := fun x =>
               if x = m0 then exec.cu_status m0 ^^^ (1 <<< j)
               else exec.cu_status x },
           ((cu_idx_from_mask j m0 : Nat) : Int)) := hloop
      rw [hget]
      refine ⟨rfl, by simp, fun m hm => by simp [hm], hbusy, ?_⟩
      simp only [eq_self_iff_true, if_true, shiftLeft_one]
      rw [Nat.testBit_xor, Nat.testBit_two_pow]
      simp [hbusy]
  · intro cmd exec h32
    constructor
    · intro hall
      exact z_gfc_loop_none cmd exec exec.num_cu_masks 0
        (fun m _ hm => hall m (by omega))
    · intro m0 j hm0 hprev hbit hleast
      have hbusy : (exec.cu_status m0).testBit j = false := by
        unfold z_cu_candidates at hbit
        rw [candBit] at hbit
        simp only [Bool.and_eq_true, Bool.not_eq_eq_eq_not, Bool.not_true] at hbit
        exact hbit.2
      have hloop := z_gfc_loop_found cmd exec m0 j (h32 m0 hm0) hbit hleast
        exec.num_cu_masks 0 (Nat.zero_le _) (by omega)
        (fun m _ hm => hprev m hm)
      have hget : Zocl.get_free_cu cmd exec =
          ({ exec with cu_status := fun x =>
               if x = m0 then exec.cu_status m0 ^^^ (1 <<< j)
               else exec.cu_status x },
           ((cu_idx_from_mask j m0 : Nat) : Int)) := hloop
      rw [hget]
      refine ⟨rfl, by simp, fun m hm => by simp [hm], hbusy, ?_⟩
      simp only [eq_self_iff_true, if_true, shiftLeft_one]
      rw [Nat.testBit_xor, Nat.testBit_two_pow]
      simp [hbusy]

/-- Witness for claim C7 at concrete inputs: with CU mask word 0 empty and
word 1 selecting bit 2, the xocl get_free_cu on a packet with two CU mask
words and the zocl get_free_cu on a core with num_cu_masks = 2 both return
global CU 34 and set that busy bit. -/
theorem c7_get_free_cu_spec_witness :
    ((Xocl.get_free_cu c7_cmd c7_exec).2 = ((34 : Nat) : Int)
      ∧ ((Xocl.get_free_cu c7_cmd c7_exec).1.cu_status 1).testBit 2 = true)
    ∧ ((Zocl.get_free_cu c7z_cmd c7zw_exec).2 = ((34 : Nat) : Int)
      ∧ ((Zocl.get_free_cu c7z_cmd c7zw_exec).1.cu_status 1).testBit 2 = true) := by
  have hx := (c7_get_free_cu_spec.1 c7_cmd c7_exec (by decide)).2 1 2 (by decide)
    (by decide) (by decide) (by decide)
  have hz := (c7_get_free_cu_spec.2 c7z_cmd c7zw_exec (by decide)).2 1 2
    (by decide) (by decide) (by decide) (by decide)
  exact ⟨⟨hx.1.trans (by decide), hx.2.2.2.2⟩,
         ⟨hz.1.trans (by decide), hz.2.2.2.2⟩⟩
